import Mathlib

/-!
Verification development for the message-similarity-clustering service.

This file gives a shallow embedding of the core of the repository:

* `needsResponse` and the ingestion pipeline `ingestMessage`
  (src/modules/messages/messages.service.ts),
* the cluster lifecycle operations `actionCluster`, `removeClusterMessage`
  and the suggestion query `getSuggestedResponses`
  (src/modules/clusters/clusters.service.ts),
* the relevant tables of the schema (messages, clusters, cluster_messages,
  response_templates).

External collaborators are abstracted into an `Env`:

* `trgm` models PostgreSQL `similarity(text, text)` (pg_trgm),
* `cos` models `1 - (a <=> b)` on stored embedding vectors; embedding
  vectors themselves are opaque tokens (`Emb := Nat`) because the service
  treats them as opaque values produced by the embedding provider,
* `embed` models `EmbeddingsService.embed`; `none` is a provider failure,
* `isEmoji` models the Unicode `\p{Emoji}` character property used by
  the `NO_RESPONSE_PATTERNS` emoji-only regular expression.

Scores are rationals; timestamps are naturals; the SQL `now()` value is an
explicit parameter of each mutating operation.  `ORDER BY ... LIMIT 1` is
modelled by taking the first row of maximal (resp. minimal) key in table
order, a deterministic refinement of the store's documented tie
nondeterminism.
-/

namespace MsgClust

/-- Opaque embedding-vector token (`vector(1536)` values are never inspected
by the service, only compared via the store's operators). -/
abbrev Emb := Nat

/-- External collaborators of the core: lexical similarity, cosine
similarity of stored vectors, the embedding provider, and the Unicode
emoji table used by the no-response filter. -/
structure Env where
  trgm : String → String → ℚ
  cos : Emb → Emb → ℚ
  embed : String → Option Emb
  isEmoji : Char → Bool

/-- `SIMILARITY_THRESHOLD = 0.9` (messages.service.ts). -/
def SIMILARITY_THRESHOLD : ℚ := mkRat 9 10

/-- `TRIGRAM_THRESHOLD = 0.85` (messages.service.ts). -/
def TRIGRAM_THRESHOLD : ℚ := mkRat 85 100

/-- `MIN_RESPONSE_LENGTH = 5` (messages.service.ts). -/
def MIN_RESPONSE_LENGTH : Nat := 5

/-- The `> 0.8` suggestion threshold (clusters.service.ts,
`getSuggestedResponses`). -/
def SUGGESTION_THRESHOLD : ℚ := mkRat 8 10

/-- Words of the first `NO_RESPONSE_PATTERNS` regular expression
`/^(thanks|thank you|thx|ty|tysm)!*\.?$/i`. -/
def thanksWords : List String := ["thanks", "thank you", "thx", "ty", "tysm"]

/-- Words of the second pattern
`/^(ok|okay|k|kk|got it|sounds good|perfect|great|awesome|cool|nice)!*\.?$/i`. -/
def okWords : List String :=
  ["ok", "okay", "k", "kk", "got it", "sounds good", "perfect", "great",
   "awesome", "cool", "nice"]

/-- Words of the third pattern `/^(yes|no|yep|nope|yea|yeah|nah)!*\.?$/i`. -/
def yesNoWords : List String := ["yes", "no", "yep", "nope", "yea", "yeah", "nah"]

/-- `text.trim()` (JS): strip leading and trailing whitespace, modelled on
the character list. -/
def jsTrim (s : String) : String :=
  String.mk
    (((s.data.dropWhile Char.isWhitespace).reverse.dropWhile
      Char.isWhitespace).reverse)

/-- Case folding performed by the regex `i` flag, modelled on the
character list. -/
def jsLower (s : String) : String :=
  String.mk (s.data.map Char.toLower)

/-- Strip the suffix matched by `!*\.?` from a string: one optional final
dot, then any run of exclamation marks. -/
def dropBangsDot (s : String) : String :=
  let cs := s.data.reverse
  let cs := match cs with
    | '.' :: rest => rest
    | other => other
  let cs := cs.dropWhile (fun c => c = '!')
  String.mk cs.reverse

/-- Case-insensitive match of `^(w₁|…|wₙ)!*\.?$` against `s`. -/
def matchesAckWords (words : List String) (s : String) : Bool :=
  words.contains (dropBangsDot (jsLower s))

/-- Match of the emoji-only pattern `/^[\p{Emoji}\s]+$/u` against `s`. -/
def emojiOnly (env : Env) (s : String) : Bool :=
  !s.data.isEmpty && s.data.all (fun c => env.isEmoji c || c.isWhitespace)

/-- `NO_RESPONSE_PATTERNS.some((p) => p.test(trimmed))`. -/
def noResponsePatternMatch (env : Env) (s : String) : Bool :=
  matchesAckWords thanksWords s || matchesAckWords okWords s ||
    matchesAckWords yesNoWords s || emojiOnly env s

/-- `needsResponse` (messages.service.ts): too-short or pattern-matching
trimmed texts do not need a response. -/
def needsResponse (env : Env) (text : String) : Bool :=
  let trimmed := jsTrim text
  if trimmed.length < MIN_RESPONSE_LENGTH then false
  else if noResponsePatternMatch env trimmed then false
  else true

/-- `cluster_status` enum; the TS enum members are `Open` and `Actioned`. -/
inductive ClusterStatus where
  | Open
  | Actioned
deriving DecidableEq, Repr

/-- A row of the `messages` table. -/
structure MessageRow where
  id : Nat
  externalMessageId : String
  creatorId : String
  channelId : String
  channelCid : Option String
  visitorUserId : Option String
  visitorUsername : Option String
  text : String
  embedding : Option Emb
  createdAt : Nat
  repliedAt : Option Nat
  isPaidDm : Bool
  rawPayload : Option String
deriving DecidableEq, Repr

/-- A row of the `clusters` table. -/
structure ClusterRow where
  id : Nat
  creatorId : String
  status : ClusterStatus
  responseText : Option String
  createdAt : Nat
  updatedAt : Nat
deriving DecidableEq, Repr

/-- A row of the `cluster_messages` join table.  `excludedAt` mirrors the
`excluded_at` column referenced by the service SQL; no current operation
ever sets it. -/
structure ClusterMessage where
  clusterId : Nat
  messageId : Nat
  createdAt : Nat
  excludedAt : Option Nat
deriving DecidableEq, Repr

/-- A row of the `response_templates` table (`question_embedding` is
NOT NULL). -/
structure ResponseTemplate where
  id : Nat
  creatorId : String
  questionText : Option String
  questionEmbedding : Emb
  responseText : String
  usageCount : Nat
  lastUsedAt : Nat
  createdAt : Nat
deriving DecidableEq, Repr

/-- The persistent store: the four tables plus id generators standing for
`gen_random_uuid()`. -/
structure Store where
  messages : List MessageRow
  clusters : List ClusterRow
  clusterMessages : List ClusterMessage
  templates : List ResponseTemplate
  nextMessageId : Nat
  nextClusterId : Nat
  nextTemplateId : Nat
deriving DecidableEq, Repr

/-- The empty database. -/
def Store.empty : Store :=
  { messages := [], clusters := [], clusterMessages := [], templates := [],
    nextMessageId := 0, nextClusterId := 0, nextTemplateId := 0 }

/-- First element of maximal key in list order
(`ORDER BY key DESC LIMIT 1`). -/
def maxBy? (f : α → ℚ) : List α → Option α
  | [] => none
  | x :: xs => some (xs.foldl (fun b y => if f b < f y then y else b) x)

/-- First element of minimal `Nat` key in list order
(`ORDER BY key ASC LIMIT 1`). -/
def minByNat? (f : α → Nat) : List α → Option α
  | [] => none
  | x :: xs => some (xs.foldl (fun b y => if f y < f b then y else b) x)

/-- Row lookup `messages.id = mid`. -/
def findMessage (s : Store) (mid : Nat) : Option MessageRow :=
  s.messages.find? (fun m => m.id == mid)

/-- Row lookup `clusters.id = cid`. -/
def findCluster (s : Store) (cid : Nat) : Option ClusterRow :=
  s.clusters.find? (fun c => c.id == cid)

/-- `LEFT JOIN cluster_messages cm ON cm.message_id = m.id AND
cm.excluded_at IS NULL`: the message's active cluster, if any. -/
def activeClusterOf (s : Store) (mid : Nat) : Option Nat :=
  (s.clusterMessages.find? (fun cm => cm.messageId == mid && cm.excludedAt.isNone)).map
    (fun cm => cm.clusterId)

/-- `(c.status IS NULL OR c.status = 'open')` after the left joins. -/
def clusterOpenOrNone (s : Store) (oc : Option Nat) : Bool :=
  match oc with
  | none => true
  | some cid =>
    match findCluster s cid with
    | none => true
    | some c => c.status == ClusterStatus.Open

/-- `IngestMessageInput` (ingest-message.input.ts). -/
structure IngestMessageInput where
  creatorId : String
  messageId : String
  text : String
  channelId : String
  channelCid : Option String
  visitorUserId : Option String
  visitorUsername : Option String
  createdAt : Option Nat
  isPaidDm : Option Bool
  rawPayload : Option String
deriving DecidableEq, Repr

/-- Errors an ingest can surface; the embedding provider throwing aborts
the transaction. -/
inductive IngestError where
  | embeddingUnavailable
deriving DecidableEq, Repr

/-- `IngestResult` (ingest-result.model.ts): either skipped with a reason,
or the ingested message/cluster ids plus optional match info. -/
inductive IngestResult where
  | skipped (skipReason : String)
  | ingested (messageId : Nat) (clusterId : Nat)
      (matchedMessageId : Option Nat) (similarity : Option ℚ)
deriving DecidableEq, Repr

/-- Outcome of one `ingestMessage` call: the returned value (or error),
the committed store (unchanged on error/skip), and whether
`embeddings.embed` was invoked. -/
structure IngestOutcome where
  result : Except IngestError IngestResult
  store : Store
  embedCalled : Bool

/-- The trigram query's WHERE clause (messages.service.ts Step 1):
same creator, unreplied, non-paid, trigram similarity above threshold,
and owning cluster (if any) still open. -/
def trigramFilter (env : Env) (s : Store) (input : IngestMessageInput)
    (m : MessageRow) : Bool :=
  m.creatorId == input.creatorId && m.repliedAt.isNone && m.isPaidDm == false &&
    decide (TRIGRAM_THRESHOLD < env.trgm m.text input.text) &&
    clusterOpenOrNone s (activeClusterOf s m.id)

/-- Best trigram candidate (`ORDER BY similarity(m.text,$1) DESC LIMIT 1`). -/
def lexicalBest (env : Env) (s : Store) (input : IngestMessageInput) :
    Option MessageRow :=
  maxBy? (fun m => env.trgm m.text input.text)
    (s.messages.filter (trigramFilter env s input))

/-- The `cluster_has_embeddings` EXISTS subquery: some other active member
of cluster `cid` has a non-null embedding. -/
def clusterHasOtherEmbedded (s : Store) (cid : Nat) (mid : Nat) : Bool :=
  s.clusterMessages.any (fun cm2 =>
    cm2.clusterId == cid && cm2.excludedAt.isNone && !(cm2.messageId == mid) &&
      (match findMessage s cm2.messageId with
       | some m2 => m2.embedding.isSome
       | none => false))

/-- The vector query's WHERE clause (Step 4): same creator, unreplied,
non-paid, not the new message, embedded, owning cluster (if any) open. -/
def vectorFilter (s : Store) (input : IngestMessageInput) (newId : Nat)
    (m : MessageRow) : Bool :=
  m.creatorId == input.creatorId && m.repliedAt.isNone && m.isPaidDm == false &&
    !(m.id == newId) && m.embedding.isSome &&
    clusterOpenOrNone s (activeClusterOf s m.id)

/-- `1 - (m.embedding <=> $1)` for a candidate row (candidates always have
an embedding; the `none` branch is never hit on filtered rows). -/
def vectorSim (env : Env) (e : Emb) (m : MessageRow) : ℚ :=
  match m.embedding with
  | some me => env.cos me e
  | none => 0

/-- Best vector candidate (`ORDER BY m.embedding <=> $1 LIMIT 1`). -/
def vectorBest (env : Env) (s : Store) (input : IngestMessageInput)
    (newId : Nat) (e : Emb) : Option MessageRow :=
  maxBy? (vectorSim env e) (s.messages.filter (vectorFilter s input newId))

/-- Step 1's match, skipped entirely for paid DMs. -/
def lexMatch (env : Env) (s : Store) (input : IngestMessageInput) :
    Option MessageRow :=
  if input.isPaidDm == some true then none else lexicalBest env s input

/-- The cluster resolved by the lexical stage (`match.cluster_id`). -/
def lexCluster (env : Env) (s : Store) (input : IngestMessageInput) :
    Option Nat :=
  (lexMatch env s input).bind (fun m => activeClusterOf s m.id)

/-- Whether Step 1 decided to skip the embedding call: a lexical match
joined a cluster that has another embedded member. -/
def lexSkipEmbed (env : Env) (s : Store) (input : IngestMessageInput) : Bool :=
  match lexMatch env s input, lexCluster env s input with
  | some m, some cid => clusterHasOtherEmbedded s cid m.id
  | _, _ => false

/-- The `messages` row inserted by Step 3. -/
def newMessageRow (input : IngestMessageInput) (newId : Nat)
    (emb : Option Emb) (createdAt : Nat) (isPaid : Bool) : MessageRow :=
  { id := newId, externalMessageId := input.messageId,
    creatorId := input.creatorId, channelId := input.channelId,
    channelCid := input.channelCid, visitorUserId := input.visitorUserId,
    visitorUsername := input.visitorUsername, text := input.text,
    embedding := emb, createdAt := createdAt, repliedAt := none,
    isPaidDm := isPaid, rawPayload := input.rawPayload }

/-- `INSERT INTO messages ... RETURNING id` (the id generator advances). -/
def insertMessage (s : Store) (msg : MessageRow) : Store :=
  { s with
     messages := s.messages ++ [msg],
     nextMessageId := s.nextMessageId + 1 }

/-- A freshly inserted `clusters` row: status defaults to `open`,
timestamps to `now()`. -/
def freshClusterRow (cid : Nat) (creator : String) (now : Nat) : ClusterRow :=
  { id := cid, creatorId := creator, status := ClusterStatus.Open,
    responseText := none, createdAt := now, updatedAt := now }

/-- `INSERT INTO clusters (creator_id) VALUES ($1) RETURNING id`:
returns the fresh id and the updated store. -/
def newClusterStore (s : Store) (creator : String) (now : Nat) : Nat × Store :=
  (s.nextClusterId,
   { s with
      clusters := s.clusters ++ [freshClusterRow s.nextClusterId creator now],
      nextClusterId := s.nextClusterId + 1 })

/-- `INSERT INTO cluster_messages (cluster_id, message_id) VALUES ($1,$2)`. -/
def addMembership (s : Store) (cid mid now : Nat) : Store :=
  { s with
     clusterMessages := s.clusterMessages ++
       [{ clusterId := cid, messageId := mid, createdAt := now,
          excludedAt := none }] }

/-- Step 4 of `ingestMessage`: the vector-similarity attempt, run only
when the lexical stage resolved no cluster, the message is not paid, and
an embedding is available. -/
def vectorStage (env : Env) (s1 : Store) (input : IngestMessageInput)
    (now newId : Nat) (matched1 : Option (Nat × ℚ)) (e : Emb) :
    Option Nat × Option (Nat × ℚ) × Store :=
  match vectorBest env s1 input newId e with
  | some m =>
    if SIMILARITY_THRESHOLD ≤ vectorSim env e m then
      match activeClusterOf s1 m.id with
      | some cid => (some cid, some (m.id, vectorSim env e m), s1)
      | none =>
        -- matched message not in a cluster: create one and add both
        let p := newClusterStore s1 input.creatorId now
        (some p.1, some (m.id, vectorSim env e m),
         addMembership p.2 p.1 m.id now)
    else (none, matched1, s1)
  | none => (none, matched1, s1)

/-- Steps 5–6 of `ingestMessage`: create a new cluster when none was
resolved, then add the new message to the final cluster. -/
def attachToCluster (s4 : Store) (creator : String) (now newId : Nat)
    (clusterOpt : Option Nat) (mf : Option (Nat × ℚ)) :
    Nat × Option (Nat × ℚ) × Store :=
  match clusterOpt with
  | some cid => (cid, mf, addMembership s4 cid newId now)
  | none =>
    let p := newClusterStore s4 creator now
    (p.1, mf, addMembership p.2 p.1 newId now)

/-- Steps 4–6 of `ingestMessage`, given the lexical stage's resolution.
Returns the final cluster id, the final match info, and the store. -/
def resolveCluster (env : Env) (s1 : Store) (input : IngestMessageInput)
    (now newId : Nat) (isPaid : Bool) (cluster1 : Option Nat)
    (matched1 : Option (Nat × ℚ)) (embLit : Option Emb) :
    Nat × Option (Nat × ℚ) × Store :=
  -- Step 4: vector match, only when no cluster yet, non-paid, embedded
  match cluster1, isPaid, embLit with
  | none, false, some e =>
    match vectorStage env s1 input now newId matched1 e with
    | (copt, mf, s4) => attachToCluster s4 input.creatorId now newId copt mf
  | c1, _, _ => attachToCluster s1 input.creatorId now newId c1 matched1

/-- `ingestMessage` (messages.service.ts). -/
def ingestMessage (env : Env) (s : Store) (input : IngestMessageInput)
    (now : Nat) : IngestOutcome :=
  if needsResponse env input.text = false then
    { result := .ok (.skipped "no_response_needed"), store := s,
      embedCalled := false }
  else
    let isPaid : Bool := input.isPaidDm == some true
    let createdAt := input.createdAt.getD now
    -- Step 1: trigram match (skipped entirely for paid DMs)
    let matched1 : Option (Nat × ℚ) :=
      (lexMatch env s input).map (fun m => (m.id, env.trgm m.text input.text))
    let cluster1 : Option Nat := lexCluster env s input
    let skippedEmbedding : Bool := lexSkipEmbed env s input
    -- Step 2: get the embedding unless skipped
    let embRes : Option (Option Emb) :=
      if skippedEmbedding then some none
      else
        match env.embed input.text with
        | some e => some (some e)
        | none => none
    match embRes with
    | none =>
      -- provider failure: ROLLBACK, rethrow
      { result := .error .embeddingUnavailable, store := s, embedCalled := true }
    | some embLit =>
      -- Step 3: insert the message row
      let newId := s.nextMessageId
      let s1 : Store :=
        insertMessage s (newMessageRow input newId embLit createdAt isPaid)
      match resolveCluster env s1 input now newId isPaid cluster1 matched1 embLit with
      | (cid, mf, s6) =>
        { result := .ok (.ingested newId cid (mf.map (fun p => p.1))
            (mf.map (fun p => p.2))),
          store := s6, embedCalled := !skippedEmbedding }

/-- Errors surfaced by `actionCluster`: the empty-channel validation, the
not-found check, and the store rejecting `INSERT` of a NULL
`question_embedding` (NOT NULL constraint). -/
inductive ActionError where
  | emptyChannels
  | clusterNotFound
  | notNullViolation
deriving DecidableEq, Repr

/-- Outcome of a mutating cluster operation: result and committed store
(unchanged when the transaction rolled back). -/
structure ActionOutcome where
  result : Except ActionError Unit
  store : Store

/-- Active/all member rows of a cluster.  The queries of the current
`ClustersService` read `cluster_messages` for a cluster without an
`excluded_at` restriction. -/
def membersOf (s : Store) (cid : Nat) : List ClusterMessage :=
  s.clusterMessages.filter (fun cm => cm.clusterId == cid)

/-- The message rows joined to a cluster's memberships
(`JOIN messages m ON cm.message_id = m.id`). -/
def memberMessages (s : Store) (cid : Nat) : List MessageRow :=
  (membersOf s cid).filterMap (fun cm => findMessage s cm.messageId)

/-- `ORDER BY m.created_at ASC LIMIT 1` over a cluster's member messages:
the cluster's earliest member. -/
def earliestMember (s : Store) (cid : Nat) : Option MessageRow :=
  minByNat? (fun m => m.createdAt) (memberMessages s cid)

/-- The `response_templates` upsert of `actionCluster` (steps 1–2 of its
transaction body): increment the matching template or insert a fresh one.
`none` embedding makes the SQL lookup match nothing (`= NULL`) and the
insert violate the NOT NULL constraint. -/
def upsertTemplate (s : Store) (creator : String) (responseText : String)
    (emb : Option Emb) (now : Nat) : Option Store :=
  match emb with
  | none => none
  | some e =>
    match s.templates.find? (fun t =>
        t.creatorId == creator && t.responseText == responseText &&
          t.questionEmbedding == e) with
    | some t =>
      some { s with
        templates := s.templates.map (fun t2 =>
          if t2.id == t.id then
            { t2 with usageCount := t2.usageCount + 1, lastUsedAt := now }
          else t2) }
    | none =>
      some { s with
        templates := s.templates ++
          [{ id := s.nextTemplateId, creatorId := creator,
             questionText := none, questionEmbedding := e,
             responseText := responseText, usageCount := 1,
             lastUsedAt := now, createdAt := now }],
        nextTemplateId := s.nextTemplateId + 1 }

/-- Steps 3–4 of `actionCluster`'s transaction: delete the member message
rows (`ON DELETE CASCADE` removes their memberships) and delete the
cluster row (cascading any remaining memberships of that cluster). -/
def purgeCluster (s2 : Store) (members : List ClusterMessage) (id : Nat) :
    Store :=
  let memberIds := members.map (fun cm => cm.messageId)
  { s2 with
     messages := s2.messages.filter (fun m => !(memberIds.contains m.id)),
     clusters := s2.clusters.filter (fun c2 => !(c2.id == id)),
     clusterMessages := (s2.clusterMessages.filter
       (fun cm => !(memberIds.contains cm.messageId))).filter
         (fun cm => !(cm.clusterId == id)) }

/-- `actionCluster` (clusters.service.ts): after validating `channelIds`,
record the response template keyed by the earliest member's embedding,
then delete every member message row (the `ON DELETE CASCADE` on
`cluster_messages.message_id` removes their memberships) and delete the
cluster row (cascading its remaining memberships). -/
def actionCluster (s : Store) (now : Nat) (id : Nat) (responseText : String)
    (channelIds : List String) : ActionOutcome :=
  if channelIds.isEmpty then
    { result := .error .emptyChannels, store := s }
  else
    match findCluster s id with
    | none => { result := .error .clusterNotFound, store := s }
    | some c =>
      match earliestMember s id with
      | none => { result := .error .clusterNotFound, store := s }
      | some earliest =>
        match upsertTemplate s c.creatorId responseText earliest.embedding now with
        | none => { result := .error .notNullViolation, store := s }
        | some s2 => { result := .ok (), store := purgeCluster s2 (membersOf s id) id }

/-- `removeClusterMessage` (clusters.service.ts): delete one membership;
delete the cluster too when it was the last one, otherwise bump
`updated_at`.  The `Option Nat` result is the refreshed cluster id or
`null` when the cluster was deleted. -/
def removeClusterMessage (s : Store) (now : Nat) (clusterId messageId : Nat) :
    Except ActionError (Option Nat) × Store :=
  match s.clusterMessages.find? (fun cm =>
      cm.clusterId == clusterId && cm.messageId == messageId) with
  | none => (.error .clusterNotFound, s)
  | some _ =>
    let s1 : Store :=
      { s with
         clusterMessages := s.clusterMessages.filter (fun cm =>
           !(cm.clusterId == clusterId && cm.messageId == messageId)) }
    if (s1.clusterMessages.filter (fun cm => cm.clusterId == clusterId)).isEmpty then
      (.ok none,
       { s1 with
          clusters := s1.clusters.filter (fun c => !(c.id == clusterId)) })
    else
      (.ok (some clusterId),
       { s1 with
          clusters := s1.clusters.map (fun c =>
            if c.id == clusterId then { c with updatedAt := now } else c) })

/-- Sort key of `getSuggestedResponses`:
`ORDER BY similarity DESC, usage_count DESC, last_used_at DESC`,
expressed as a lexicographic triple. -/
def suggKey (env : Env) (e : Emb) (t : ResponseTemplate) : ℚ ×ₗ (ℕ ×ₗ ℕ) :=
  (env.cos t.questionEmbedding e, t.usageCount, t.lastUsedAt)

/-- The suggestion ordering: larger keys first. -/
def suggRel (env : Env) (e : Emb) (a b : ResponseTemplate) : Prop :=
  suggKey env e b ≤ suggKey env e a

instance (env : Env) (e : Emb) : DecidableRel (suggRel env e) :=
  fun a b => inferInstanceAs (Decidable (suggKey env e b ≤ suggKey env e a))

/-- `result.rows[0]?.embedding` of the earliest-member query: the earliest
member's embedding, when both exist. -/
def earliestEmbedding (s : Store) (cid : Nat) : Option Emb :=
  match earliestMember s cid with
  | none => none
  | some m => m.embedding

/-- The template rows a suggestion query returns, in order: the creator's
templates above the similarity threshold, sorted by the suggestion
ordering, first three (`LIMIT 3`). -/
def suggestionTemplates (env : Env) (s : Store) (clusterId : Nat)
    (creatorId : String) : List ResponseTemplate :=
  match earliestEmbedding s clusterId with
  | none => []
  | some e =>
    ((s.templates.filter (fun t =>
        t.creatorId == creatorId &&
          decide (SUGGESTION_THRESHOLD < env.cos t.questionEmbedding e))).insertionSort
      (suggRel env e)).take 3

/-- `Number(x.toFixed(3))`: round to three decimal places. -/
def round3 (q : ℚ) : ℚ := (⌊q * 1000 + 1 / 2⌋ : ℚ) / 1000

/-- `getSuggestedResponses` (clusters.service.ts): empty when the cluster's
earliest member is missing or unembedded; otherwise the top templates
mapped to (text, rounded similarity). -/
def getSuggestedResponses (env : Env) (s : Store) (clusterId : Nat)
    (creatorId : String) : List (String × ℚ) :=
  match earliestEmbedding s clusterId with
  | none => []
  | some e =>
    (suggestionTemplates env s clusterId creatorId).map (fun t =>
      (t.responseText, round3 (env.cos t.questionEmbedding e)))

/-- The mutating operations of the core (ingest, bulk action, manual
member removal), each carrying its `now()` timestamp. -/
inductive Op where
  | ingest (input : IngestMessageInput) (now : Nat)
  | action (id : Nat) (responseText : String) (channelIds : List String) (now : Nat)
  | remove (clusterId messageId : Nat) (now : Nat)

/-- The store committed by one operation (unchanged when it failed). -/
def stepOp (env : Env) (s : Store) : Op → Store
  | .ingest input now => (ingestMessage env s input now).store
  | .action id text channels now => (actionCluster s now id text channels).store
  | .remove cid mid now => (removeClusterMessage s now cid mid).2

/-- The store after a sequence of operations. -/
def run (env : Env) (s : Store) (ops : List Op) : Store :=
  ops.foldl (stepOp env) s

/-! ## Store well-formedness

The inductive invariant maintained by every operation, starting from the
empty store.  It packages the schema constraints (`UNIQUE (message_id)`,
foreign keys, id freshness) together with two behavioural facts: no
membership is ever marked excluded by the current code, and a paid DM's
cluster contains no other member. -/

/-- Well-formedness of a reachable store. -/
structure WF (s : Store) : Prop where
  msg_lt : ∀ m ∈ s.messages, m.id < s.nextMessageId
  msg_nodup : s.messages.Pairwise (fun a b => a.id ≠ b.id)
  cl_lt : ∀ c ∈ s.clusters, c.id < s.nextClusterId
  cl_nodup : s.clusters.Pairwise (fun a b => a.id ≠ b.id)
  cm_msg : ∀ cm ∈ s.clusterMessages, ∃ m ∈ s.messages, m.id = cm.messageId
  cm_cl : ∀ cm ∈ s.clusterMessages, ∃ c ∈ s.clusters, c.id = cm.clusterId
  cm_nodup : s.clusterMessages.Pairwise (fun a b => a.messageId ≠ b.messageId)
  cm_active : ∀ cm ∈ s.clusterMessages, cm.excludedAt = none
  paid_iso : ∀ m ∈ s.messages, m.isPaidDm = true →
    ∀ cm ∈ s.clusterMessages, cm.messageId = m.id →
      ∀ cm2 ∈ s.clusterMessages, cm2.clusterId = cm.clusterId →
        cm2.messageId = m.id

theorem WF_empty : WF Store.empty := by
  constructor <;> simp [Store.empty]

theorem maxBy?_mem {f : α → ℚ} {l : List α} {x : α}
    (h : maxBy? f l = some x) : x ∈ l := by
  cases l with
  | nil => simp [maxBy?] at h
  | cons a as =>
    simp only [maxBy?, Option.some.injEq] at h
    subst h
    suffices hgen : ∀ (as : List α) (a : α),
        as.foldl (fun b y => if f b < f y then y else b) a ∈ a :: as by
      exact hgen as a
    intro as
    induction as with
    | nil => intro a; simp
    | cons y ys ih =>
      intro a
      simp only [List.foldl_cons]
      by_cases hfy : f a < f y
      · rw [if_pos hfy]
        rcases List.mem_cons.mp (ih y) with h1 | h1
        · simp [h1]
        · simp [h1]
      · rw [if_neg hfy]
        rcases List.mem_cons.mp (ih a) with h1 | h1
        · simp [h1]
        · simp [h1]

theorem minByNat?_mem {f : α → Nat} {l : List α} {x : α}
    (h : minByNat? f l = some x) : x ∈ l := by
  cases l with
  | nil => simp [minByNat?] at h
  | cons a as =>
    simp only [minByNat?, Option.some.injEq] at h
    subst h
    suffices hgen : ∀ (as : List α) (a : α),
        as.foldl (fun b y => if f y < f b then y else b) a ∈ a :: as by
      exact hgen as a
    intro as
    induction as with
    | nil => intro a; simp
    | cons y ys ih =>
      intro a
      simp only [List.foldl_cons]
      by_cases hfy : f y < f a
      · rw [if_pos hfy]
        rcases List.mem_cons.mp (ih y) with h1 | h1
        · simp [h1]
        · simp [h1]
      · rw [if_neg hfy]
        rcases List.mem_cons.mp (ih a) with h1 | h1
        · simp [h1]
        · simp [h1]

/-- In a list pairwise-distinct on a key, equal keys force equal elements. -/
theorem eq_of_mem_pairwise_ne {l : List α} {f : α → Nat} {a b : α}
    (hp : l.Pairwise (fun x y => f x ≠ f y)) (ha : a ∈ l) (hb : b ∈ l)
    (h : f a = f b) : a = b := by
  induction l with
  | nil => cases ha
  | cons x xs ih =>
    rcases List.pairwise_cons.mp hp with ⟨hx, hxs⟩
    rcases List.mem_cons.mp ha with rfl | ha2
    · rcases List.mem_cons.mp hb with rfl | hb2
      · rfl
      · exact absurd h (hx _ hb2)
    · rcases List.mem_cons.mp hb with rfl | hb2
      · exact absurd h.symm (hx _ ha2)
      · exact ih hxs ha2 hb2

/-- An active-membership lookup that succeeds names a real membership row. -/
theorem activeClusterOf_some {s : Store} {mid cid : Nat}
    (h : activeClusterOf s mid = some cid) :
    ∃ cm ∈ s.clusterMessages,
      cm.messageId = mid ∧ cm.excludedAt = none ∧ cm.clusterId = cid := by
  unfold activeClusterOf at h
  cases hf : s.clusterMessages.find? (fun cm =>
      cm.messageId == mid && cm.excludedAt.isNone) with
  | none => rw [hf] at h; cases h
  | some cm =>
    rw [hf] at h
    have hmem := List.mem_of_find?_eq_some hf
    have hprop := List.find?_some hf
    simp only [Bool.and_eq_true, beq_iff_eq, Option.isNone_iff_eq_none] at hprop
    simp only [Option.map_some', Option.some.injEq] at h
    exact ⟨cm, hmem, hprop.1, hprop.2, h⟩

/-- When every membership is unexcluded, a `none` active-cluster lookup
means the message has no membership row at all. -/
theorem no_membership_of_activeClusterOf_none {s : Store} {mid : Nat}
    (hact : ∀ cm ∈ s.clusterMessages, cm.excludedAt = none)
    (h : activeClusterOf s mid = none) :
    ∀ cm ∈ s.clusterMessages, cm.messageId ≠ mid := by
  intro cm hcm heq
  unfold activeClusterOf at h
  cases hf : s.clusterMessages.find? (fun cm =>
      cm.messageId == mid && cm.excludedAt.isNone) with
  | some cm2 => rw [hf] at h; cases h
  | none =>
    have := List.find?_eq_none.mp hf cm hcm
    simp only [Bool.and_eq_true, beq_iff_eq, Option.isNone_iff_eq_none,
      not_and] at this
    exact this heq (hact cm hcm)

/-- A lexical-stage match is a message row passing the trigram filter. -/
theorem lexMatch_mem {env : Env} {s : Store} {input : IngestMessageInput}
    {m : MessageRow} (h : lexMatch env s input = some m) :
    m ∈ s.messages ∧ trigramFilter env s input m = true := by
  unfold lexMatch at h
  by_cases hp : (input.isPaidDm == some true) = true
  · simp [hp] at h
  · simp only [hp] at h
    simp only [Bool.false_eq_true, if_false] at h
    have hmem := maxBy?_mem h
    exact ⟨(List.mem_filter.mp hmem).1, (List.mem_filter.mp hmem).2⟩

/-- A vector-stage match is a message row passing the vector filter. -/
theorem vectorBest_mem {env : Env} {s : Store} {input : IngestMessageInput}
    {newId : Nat} {e : Emb} {m : MessageRow}
    (h : vectorBest env s input newId e = some m) :
    m ∈ s.messages ∧ vectorFilter s input newId m = true := by
  unfold vectorBest at h
  have hmem := maxBy?_mem h
  exact ⟨(List.mem_filter.mp hmem).1, (List.mem_filter.mp hmem).2⟩

/-- No membership row can mention the not-yet-allocated message id. -/
theorem fresh_message_no_members {s : Store} (h : WF s) :
    ∀ cm ∈ s.clusterMessages, cm.messageId ≠ s.nextMessageId := by
  intro cm hcm heq
  obtain ⟨m, hmem, hid⟩ := h.cm_msg cm hcm
  have := h.msg_lt m hmem
  omega

/-- No membership row can mention the not-yet-allocated cluster id. -/
theorem fresh_cluster_no_members {s : Store} (h : WF s) :
    ∀ cm ∈ s.clusterMessages, cm.clusterId ≠ s.nextClusterId := by
  intro cm hcm heq
  obtain ⟨c, hmem, hid⟩ := h.cm_cl cm hcm
  have := h.cl_lt c hmem
  omega

/-- Inserting a fresh message row preserves well-formedness. -/
theorem WF_insertMessage {s : Store} {msg : MessageRow} (h : WF s)
    (hid : msg.id = s.nextMessageId) : WF (insertMessage s msg) := by
  have hfreshm : ∀ m ∈ s.messages, m.id ≠ msg.id := by
    intro m hm heq
    have := h.msg_lt m hm
    omega
  constructor
  · intro m hm
    rcases List.mem_append.mp hm with h1 | h1
    · have := h.msg_lt m h1
      simp only [insertMessage]
      omega
    · simp only [List.mem_singleton] at h1
      subst h1
      simp only [insertMessage]
      omega
  · simp only [insertMessage]
    rw [List.pairwise_append]
    refine ⟨h.msg_nodup, List.pairwise_singleton _ _, ?_⟩
    intro a ha b hb
    simp only [List.mem_singleton] at hb
    subst hb
    exact hfreshm a ha
  · exact h.cl_lt
  · exact h.cl_nodup
  · intro cm hcm
    obtain ⟨m, hm, hmid⟩ := h.cm_msg cm hcm
    exact ⟨m, List.mem_append.mpr (Or.inl hm), hmid⟩
  · exact h.cm_cl
  · exact h.cm_nodup
  · exact h.cm_active
  · intro m hm hpaid cm hcm hcmid cm2 hcm2 hcl2
    rcases List.mem_append.mp hm with h1 | h1
    · exact h.paid_iso m h1 hpaid cm hcm hcmid cm2 hcm2 hcl2
    · simp only [List.mem_singleton] at h1
      subst h1
      exfalso
      have := fresh_message_no_members h cm hcm
      rw [hcmid, hid] at this
      exact this rfl

/-- Creating a fresh cluster row preserves well-formedness. -/
theorem WF_newClusterStore {s : Store} (h : WF s) (creator : String)
    (now : Nat) : WF (newClusterStore s creator now).2 := by
  have hfreshc : ∀ c ∈ s.clusters, c.id ≠ s.nextClusterId := by
    intro c hc heq
    have := h.cl_lt c hc
    omega
  constructor
  · exact h.msg_lt
  · exact h.msg_nodup
  · intro c hc
    rcases List.mem_append.mp hc with h1 | h1
    · have := h.cl_lt c h1
      simp only [newClusterStore]
      omega
    · simp only [List.mem_singleton] at h1
      subst h1
      simp only [newClusterStore, freshClusterRow]
      omega
  · simp only [newClusterStore]
    rw [List.pairwise_append]
    refine ⟨h.cl_nodup, List.pairwise_singleton _ _, ?_⟩
    intro a ha b hb
    simp only [List.mem_singleton] at hb
    subst hb
    simpa [freshClusterRow] using hfreshc a ha
  · exact h.cm_msg
  · intro cm hcm
    obtain ⟨c, hc, hcid⟩ := h.cm_cl cm hcm
    exact ⟨c, List.mem_append.mpr (Or.inl hc), hcid⟩
  · exact h.cm_nodup
  · exact h.cm_active
  · exact h.paid_iso

/-- Adding a membership row preserves well-formedness, provided the target
cluster exists, the message exists and is not yet a member anywhere, and
the paid-isolation side conditions hold: a paid message only ever joins an
empty cluster, and no paid message already owns the target cluster. -/
theorem WF_addMembership {s : Store} {cid mid now : Nat} (h : WF s)
    (hcl : ∃ c ∈ s.clusters, c.id = cid)
    (hmsg : ∃ m ∈ s.messages, m.id = mid)
    (hfresh : ∀ cm ∈ s.clusterMessages, cm.messageId ≠ mid)
    (hpaidNew : ∀ m ∈ s.messages, m.id = mid → m.isPaidDm = true →
      ∀ cm ∈ s.clusterMessages, cm.clusterId ≠ cid)
    (hpaidOld : ∀ p ∈ s.messages, p.isPaidDm = true →
      ∀ cmp ∈ s.clusterMessages, cmp.messageId = p.id →
        cmp.clusterId ≠ cid) :
    WF (addMembership s cid mid now) := by
  constructor
  · exact h.msg_lt
  · exact h.msg_nodup
  · exact h.cl_lt
  · exact h.cl_nodup
  · intro cm hcm
    rcases List.mem_append.mp hcm with h1 | h1
    · exact h.cm_msg cm h1
    · simp only [List.mem_singleton] at h1
      subst h1
      exact hmsg
  · intro cm hcm
    rcases List.mem_append.mp hcm with h1 | h1
    · exact h.cm_cl cm h1
    · simp only [List.mem_singleton] at h1
      subst h1
      exact hcl
  · simp only [addMembership]
    rw [List.pairwise_append]
    refine ⟨h.cm_nodup, List.pairwise_singleton _ _, ?_⟩
    intro a ha b hb
    simp only [List.mem_singleton] at hb
    subst hb
    exact hfresh a ha
  · intro cm hcm
    rcases List.mem_append.mp hcm with h1 | h1
    · exact h.cm_active cm h1
    · simp only [List.mem_singleton] at h1
      subst h1
      rfl
  · intro m hm hpaid cm hcm hcmid cm2 hcm2 hcl2
    rcases List.mem_append.mp hcm with h1 | h1
    · -- the membership naming the paid message is an old row
      have hne : cm.clusterId ≠ cid := hpaidOld m hm hpaid cm h1 hcmid
      rcases List.mem_append.mp hcm2 with h2 | h2
      · exact h.paid_iso m hm hpaid cm h1 hcmid cm2 h2 hcl2
      · simp only [List.mem_singleton] at h2
        subst h2
        exact absurd hcl2 (by simpa using hne.symm)
    · -- the membership naming the paid message is the new row
      simp only [List.mem_singleton] at h1
      subst h1
      simp only at hcmid hcl2
      have hforbid := hpaidNew m hm (by omega) hpaid
      rcases List.mem_append.mp hcm2 with h2 | h2
      · exact absurd hcl2 (hforbid cm2 h2)
      · simp only [List.mem_singleton] at h2
        subst h2
        simpa using hcmid

@[simp] theorem insertMessage_messages (s : Store) (msg : MessageRow) :
    (insertMessage s msg).messages = s.messages ++ [msg] := rfl

@[simp] theorem insertMessage_clusters (s : Store) (msg : MessageRow) :
    (insertMessage s msg).clusters = s.clusters := rfl

@[simp] theorem insertMessage_clusterMessages (s : Store) (msg : MessageRow) :
    (insertMessage s msg).clusterMessages = s.clusterMessages := rfl

@[simp] theorem insertMessage_nextClusterId (s : Store) (msg : MessageRow) :
    (insertMessage s msg).nextClusterId = s.nextClusterId := rfl

@[simp] theorem newClusterStore_fst (s : Store) (creator : String) (now : Nat) :
    (newClusterStore s creator now).1 = s.nextClusterId := rfl

@[simp] theorem newClusterStore_messages (s : Store) (creator : String)
    (now : Nat) : (newClusterStore s creator now).2.messages = s.messages := rfl

@[simp] theorem newClusterStore_clusterMessages (s : Store) (creator : String)
    (now : Nat) :
    (newClusterStore s creator now).2.clusterMessages = s.clusterMessages := rfl

@[simp] theorem newClusterStore_clusters (s : Store) (creator : String)
    (now : Nat) :
    (newClusterStore s creator now).2.clusters =
      s.clusters ++ [freshClusterRow s.nextClusterId creator now] := rfl

@[simp] theorem newClusterStore_nextClusterId (s : Store) (creator : String)
    (now : Nat) :
    (newClusterStore s creator now).2.nextClusterId = s.nextClusterId + 1 := rfl

@[simp] theorem addMembership_messages (s : Store) (cid mid now : Nat) :
    (addMembership s cid mid now).messages = s.messages := rfl

@[simp] theorem addMembership_clusters (s : Store) (cid mid now : Nat) :
    (addMembership s cid mid now).clusters = s.clusters := rfl

@[simp] theorem addMembership_clusterMessages (s : Store) (cid mid now : Nat) :
    (addMembership s cid mid now).clusterMessages =
      s.clusterMessages ++
        [{ clusterId := cid, messageId := mid, createdAt := now,
           excludedAt := none }] := rfl

@[simp] theorem activeClusterOf_insertMessage (s : Store) (msg : MessageRow)
    (mid : Nat) :
    activeClusterOf (insertMessage s msg) mid = activeClusterOf s mid := rfl

/-- Decomposition of the trigram filter. -/
theorem trigramFilter_spec {env : Env} {s : Store} {input : IngestMessageInput}
    {m : MessageRow} (h : trigramFilter env s input m = true) :
    m.creatorId = input.creatorId ∧ m.repliedAt = none ∧
      m.isPaidDm = false ∧ TRIGRAM_THRESHOLD < env.trgm m.text input.text ∧
      clusterOpenOrNone s (activeClusterOf s m.id) = true := by
  simp only [trigramFilter, Bool.and_eq_true, beq_iff_eq,
    Option.isNone_iff_eq_none, decide_eq_true_eq] at h
  tauto

/-- Decomposition of the vector filter. -/
theorem vectorFilter_spec {s : Store} {input : IngestMessageInput}
    {newId : Nat} {m : MessageRow} (h : vectorFilter s input newId m = true) :
    m.creatorId = input.creatorId ∧ m.repliedAt = none ∧
      m.isPaidDm = false ∧ m.id ≠ newId ∧ m.embedding.isSome = true ∧
      clusterOpenOrNone s (activeClusterOf s m.id) = true := by
  simp only [vectorFilter, Bool.and_eq_true, beq_iff_eq, Bool.not_eq_true',
    beq_eq_false_iff_ne, Option.isNone_iff_eq_none] at h
  tauto

/-- A lexical match can only happen for non-paid inputs. -/
theorem lexMatch_isPaid_false {env : Env} {s : Store}
    {input : IngestMessageInput} {m : MessageRow}
    (h : lexMatch env s input = some m) :
    (input.isPaidDm == some true) = false := by
  unfold lexMatch at h
  by_cases hp : (input.isPaidDm == some true) = true
  · simp [hp] at h
  · simpa using hp

/-- A resolved lexical cluster comes from a lexically matched row's active
membership. -/
theorem lexCluster_some {env : Env} {s : Store} {input : IngestMessageInput}
    {cid : Nat} (h : lexCluster env s input = some cid) :
    ∃ m, lexMatch env s input = some m ∧ activeClusterOf s m.id = some cid := by
  unfold lexCluster at h
  cases hm : lexMatch env s input with
  | none => rw [hm] at h; cases h
  | some m =>
    rw [hm] at h
    exact ⟨m, rfl, h⟩

/-- Joining the fresh message to the open cluster of a non-paid member
preserves well-formedness. -/
theorem WF_join_path {s : Store} (h : WF s) {msg m : MessageRow} {cid : Nat}
    (hmsgid : msg.id = s.nextMessageId) (hmsgpaid : msg.isPaidDm = false)
    (hm : m ∈ s.messages) (hmp : m.isPaidDm = false)
    (hac : activeClusterOf s m.id = some cid) (nm : Nat) :
    WF (addMembership (insertMessage s msg) cid s.nextMessageId nm) := by
  obtain ⟨cmm, hcmm, hcmmMid, _, hcmmCid⟩ := activeClusterOf_some hac
  apply WF_addMembership (WF_insertMessage h hmsgid)
  · obtain ⟨c, hc, hcid⟩ := h.cm_cl cmm hcmm
    exact ⟨c, by simpa using hc, by omega⟩
  · exact ⟨msg, by simp, hmsgid⟩
  · simpa using fresh_message_no_members h
  · intro m2 hm2 hid2 hpaid2 cm hcm
    simp only [insertMessage_messages, List.mem_append,
      List.mem_singleton] at hm2
    rcases hm2 with h1 | h1
    · have := h.msg_lt m2 h1
      omega
    · subst h1
      rw [hmsgpaid] at hpaid2
      cases hpaid2
  · intro p hp hpaid cmp hcmp hcmpMid hcmpCid
    simp only [insertMessage_messages, List.mem_append,
      List.mem_singleton] at hp
    rcases hp with h1 | h1
    · simp only [insertMessage_clusterMessages] at hcmp
      have hiso := h.paid_iso p h1 hpaid cmp hcmp hcmpMid cmm hcmm
        (by rw [hcmmCid, hcmpCid])
      rw [hcmmMid] at hiso
      have : m = p := eq_of_mem_pairwise_ne h.msg_nodup hm h1 hiso
      rw [this, hpaid] at hmp
      cases hmp
    · subst h1
      rw [hmsgpaid] at hpaid
      cases hpaid

/-- Putting the fresh message alone into a fresh cluster preserves
well-formedness (paid or not). -/
theorem WF_fresh_path {s : Store} (h : WF s) {msg : MessageRow}
    (hmsgid : msg.id = s.nextMessageId) (creator : String) (nc nm : Nat) :
    WF (addMembership (newClusterStore (insertMessage s msg) creator nc).2
      s.nextClusterId s.nextMessageId nm) := by
  apply WF_addMembership (WF_newClusterStore (WF_insertMessage h hmsgid) _ _)
  · refine ⟨freshClusterRow s.nextClusterId creator nc, ?_, rfl⟩
    simp
  · exact ⟨msg, by simp, hmsgid⟩
  · simpa using fresh_message_no_members h
  · intro m2 _ _ _ cm hcm
    simp only [newClusterStore_clusterMessages,
      insertMessage_clusterMessages] at hcm
    exact fresh_cluster_no_members h cm hcm
  · intro p _ _ cmp hcmp _
    simp only [newClusterStore_clusterMessages,
      insertMessage_clusterMessages] at hcmp
    exact fresh_cluster_no_members h cmp hcmp

/-- Creating a fresh cluster holding the vector-matched, so-far
unclustered, non-paid message plus the fresh message preserves
well-formedness. -/
theorem WF_createBoth_path {s : Store} (h : WF s) {msg m : MessageRow}
    (hmsgid : msg.id = s.nextMessageId) (hmsgpaid : msg.isPaidDm = false)
    (hm : m ∈ s.messages) (hmp : m.isPaidDm = false)
    (hmne : m.id ≠ s.nextMessageId) (hac : activeClusterOf s m.id = none)
    (creator : String) (nc n1 n2 : Nat) :
    WF (addMembership
      (addMembership (newClusterStore (insertMessage s msg) creator nc).2
        s.nextClusterId m.id n1)
      s.nextClusterId s.nextMessageId n2) := by
  have hnomem : ∀ cm ∈ s.clusterMessages, cm.messageId ≠ m.id :=
    no_membership_of_activeClusterOf_none h.cm_active hac
  have step1 : WF (addMembership
      (newClusterStore (insertMessage s msg) creator nc).2
      s.nextClusterId m.id n1) := by
    apply WF_addMembership (WF_newClusterStore (WF_insertMessage h hmsgid) _ _)
    · refine ⟨freshClusterRow s.nextClusterId creator nc, ?_, rfl⟩
      simp
    · exact ⟨m, by simp [hm], rfl⟩
    · simpa using hnomem
    · intro m2 hm2 hid2 hpaid2 cm hcm
      simp only [newClusterStore_clusterMessages,
        insertMessage_clusterMessages] at hcm
      exact fresh_cluster_no_members h cm hcm
    · intro p _ _ cmp hcmp _
      simp only [newClusterStore_clusterMessages,
        insertMessage_clusterMessages] at hcmp
      exact fresh_cluster_no_members h cmp hcmp
  apply WF_addMembership step1
  · refine ⟨freshClusterRow s.nextClusterId creator nc, ?_, rfl⟩
    simp
  · exact ⟨msg, by simp, hmsgid⟩
  · intro cm hcm
    simp only [addMembership_clusterMessages, newClusterStore_clusterMessages,
      insertMessage_clusterMessages, List.mem_append,
      List.mem_singleton] at hcm
    rcases hcm with h1 | h1
    · exact fresh_message_no_members h cm h1
    · subst h1
      simpa using hmne
  · intro m2 hm2 hid2 hpaid2 cm hcm
    simp only [addMembership_messages, newClusterStore_messages,
      insertMessage_messages, List.mem_append, List.mem_singleton] at hm2
    rcases hm2 with h1 | h1
    · have := h.msg_lt m2 h1
      omega
    · subst h1
      rw [hmsgpaid] at hpaid2
      cases hpaid2
  · intro p hp hpaid cmp hcmp hcmpMid hcmpCid
    simp only [addMembership_messages, newClusterStore_messages,
      insertMessage_messages, List.mem_append, List.mem_singleton] at hp
    rcases hp with h1 | h1
    · simp only [addMembership_clusterMessages,
        newClusterStore_clusterMessages, insertMessage_clusterMessages,
        List.mem_append, List.mem_singleton] at hcmp
      rcases hcmp with h2 | h2
      · exact fresh_cluster_no_members h cmp h2 hcmpCid
      · subst h2
        simp only at hcmpMid
        have : m = p := eq_of_mem_pairwise_ne h.msg_nodup hm h1 hcmpMid
        rw [this, hpaid] at hmp
        cases hmp
    · subst h1
      rw [hmsgpaid] at hpaid
      cases hpaid

theorem vectorStage_eq_none {env : Env} {s1 : Store}
    {input : IngestMessageInput} {now newId : Nat}
    {matched1 : Option (Nat × ℚ)} {e : Emb}
    (h : vectorBest env s1 input newId e = none) :
    vectorStage env s1 input now newId matched1 e = (none, matched1, s1) := by
  unfold vectorStage
  rw [h]

theorem vectorStage_eq_low {env : Env} {s1 : Store}
    {input : IngestMessageInput} {now newId : Nat}
    {matched1 : Option (Nat × ℚ)} {e : Emb} {m : MessageRow}
    (h : vectorBest env s1 input newId e = some m)
    (hts : ¬ SIMILARITY_THRESHOLD ≤ vectorSim env e m) :
    vectorStage env s1 input now newId matched1 e = (none, matched1, s1) := by
  unfold vectorStage
  rw [h]
  show (if SIMILARITY_THRESHOLD ≤ vectorSim env e m then _ else
    (none, matched1, s1)) = (none, matched1, s1)
  rw [if_neg hts]

theorem vectorStage_eq_join {env : Env} {s1 : Store}
    {input : IngestMessageInput} {now newId : Nat}
    {matched1 : Option (Nat × ℚ)} {e : Emb} {m : MessageRow} {cid : Nat}
    (h : vectorBest env s1 input newId e = some m)
    (hts : SIMILARITY_THRESHOLD ≤ vectorSim env e m)
    (hac : activeClusterOf s1 m.id = some cid) :
    vectorStage env s1 input now newId matched1 e =
      (some cid, some (m.id, vectorSim env e m), s1) := by
  unfold vectorStage
  rw [h]
  show (if SIMILARITY_THRESHOLD ≤ vectorSim env e m then
      (match activeClusterOf s1 m.id with
       | some cid => (some cid, some (m.id, vectorSim env e m), s1)
       | none =>
         let p := newClusterStore s1 input.creatorId now
         (some p.1, some (m.id, vectorSim env e m),
          addMembership p.2 p.1 m.id now))
    else _) = _
  rw [if_pos hts, hac]

theorem vectorStage_eq_createBoth {env : Env} {s1 : Store}
    {input : IngestMessageInput} {now newId : Nat}
    {matched1 : Option (Nat × ℚ)} {e : Emb} {m : MessageRow}
    (h : vectorBest env s1 input newId e = some m)
    (hts : SIMILARITY_THRESHOLD ≤ vectorSim env e m)
    (hac : activeClusterOf s1 m.id = none) :
    vectorStage env s1 input now newId matched1 e =
      (some (newClusterStore s1 input.creatorId now).1,
       some (m.id, vectorSim env e m),
       addMembership (newClusterStore s1 input.creatorId now).2
         (newClusterStore s1 input.creatorId now).1 m.id now) := by
  unfold vectorStage
  rw [h]
  show (if SIMILARITY_THRESHOLD ≤ vectorSim env e m then
      (match activeClusterOf s1 m.id with
       | some cid => (some cid, some (m.id, vectorSim env e m), s1)
       | none =>
         let p := newClusterStore s1 input.creatorId now
         (some p.1, some (m.id, vectorSim env e m),
          addMembership p.2 p.1 m.id now))
    else _) = _
  rw [if_pos hts, hac]

theorem resolveCluster_someCluster (env : Env) (s1 : Store)
    (input : IngestMessageInput) (now newId : Nat) (isPaid : Bool)
    (cid : Nat) (matched1 : Option (Nat × ℚ)) (embLit : Option Emb) :
    resolveCluster env s1 input now newId isPaid (some cid) matched1 embLit =
      attachToCluster s1 input.creatorId now newId (some cid) matched1 := rfl

theorem resolveCluster_paid (env : Env) (s1 : Store)
    (input : IngestMessageInput) (now newId : Nat)
    (matched1 : Option (Nat × ℚ)) (embLit : Option Emb) :
    resolveCluster env s1 input now newId true none matched1 embLit =
      attachToCluster s1 input.creatorId now newId none matched1 := rfl

theorem resolveCluster_noEmb (env : Env) (s1 : Store)
    (input : IngestMessageInput) (now newId : Nat)
    (matched1 : Option (Nat × ℚ)) :
    resolveCluster env s1 input now newId false none matched1 none =
      attachToCluster s1 input.creatorId now newId none matched1 := rfl

theorem resolveCluster_vec (env : Env) (s1 : Store)
    (input : IngestMessageInput) (now newId : Nat)
    (matched1 : Option (Nat × ℚ)) (e : Emb) :
    resolveCluster env s1 input now newId false none matched1 (some e) =
      (match vectorStage env s1 input now newId matched1 e with
       | (copt, mf, s4) =>
         attachToCluster s4 input.creatorId now newId copt mf) := rfl

/-- Cluster resolution, as invoked by `ingestMessage`, preserves
well-formedness. -/
theorem WF_resolveCluster_ingest (env : Env) {s : Store} (h : WF s)
    (input : IngestMessageInput) (now createdAt : Nat) (embLit : Option Emb)
    (matched1 : Option (Nat × ℚ)) :
    WF (resolveCluster env
      (insertMessage s (newMessageRow input s.nextMessageId embLit createdAt
        (input.isPaidDm == some true)))
      input now s.nextMessageId (input.isPaidDm == some true)
      (lexCluster env s input) matched1 embLit).2.2 := by
  cases hLC : lexCluster env s input with
  | some cid =>
    obtain ⟨m, hlm, hac⟩ := lexCluster_some hLC
    have hPfalse := lexMatch_isPaid_false hlm
    obtain ⟨hmmem, hfil⟩ := lexMatch_mem hlm
    obtain ⟨_, _, hmp, _, _⟩ := trigramFilter_spec hfil
    rw [hPfalse, resolveCluster_someCluster]
    show WF (addMembership (insertMessage s
      (newMessageRow input s.nextMessageId embLit createdAt false))
      cid s.nextMessageId now)
    exact WF_join_path h rfl rfl hmmem hmp hac now
  | none =>
    cases hP : input.isPaidDm == some true with
    | true =>
      rw [resolveCluster_paid]
      show WF (addMembership
        (newClusterStore (insertMessage s
          (newMessageRow input s.nextMessageId embLit createdAt true))
          input.creatorId now).2
        s.nextClusterId s.nextMessageId now)
      exact WF_fresh_path h rfl input.creatorId now now
    | false =>
      cases embLit with
      | none =>
        rw [resolveCluster_noEmb]
        show WF (addMembership
          (newClusterStore (insertMessage s
            (newMessageRow input s.nextMessageId none createdAt false))
            input.creatorId now).2
          s.nextClusterId s.nextMessageId now)
        exact WF_fresh_path h rfl input.creatorId now now
      | some e =>
        rw [resolveCluster_vec]
        cases hVB : vectorBest env
            (insertMessage s (newMessageRow input s.nextMessageId (some e)
              createdAt false))
            input s.nextMessageId e with
        | none =>
          rw [vectorStage_eq_none hVB]
          show WF (addMembership
            (newClusterStore (insertMessage s
              (newMessageRow input s.nextMessageId (some e) createdAt false))
              input.creatorId now).2
            s.nextClusterId s.nextMessageId now)
          exact WF_fresh_path h rfl input.creatorId now now
        | some m =>
          obtain ⟨hmmem1, hfil⟩ := vectorBest_mem hVB
          obtain ⟨_, _, hmp, hmne, _, _⟩ := vectorFilter_spec hfil
          have hmmem : m ∈ s.messages := by
            simp only [insertMessage_messages, List.mem_append,
              List.mem_singleton] at hmmem1
            rcases hmmem1 with h1 | h1
            · exact h1
            · subst h1
              simp [newMessageRow] at hmne
          by_cases hts : SIMILARITY_THRESHOLD ≤ vectorSim env e m
          · cases hAC : activeClusterOf
                (insertMessage s (newMessageRow input s.nextMessageId (some e)
                  createdAt false))
                m.id with
            | some cid =>
              have hacS : activeClusterOf s m.id = some cid := by
                rw [← hAC]; rfl
              rw [vectorStage_eq_join hVB hts hAC]
              show WF (addMembership (insertMessage s
                (newMessageRow input s.nextMessageId (some e) createdAt false))
                cid s.nextMessageId now)
              exact WF_join_path h rfl rfl hmmem hmp hacS now
            | none =>
              have hacS : activeClusterOf s m.id = none := by
                rw [← hAC]; rfl
              rw [vectorStage_eq_createBoth hVB hts hAC]
              show WF (addMembership
                (addMembership
                  (newClusterStore (insertMessage s
                    (newMessageRow input s.nextMessageId (some e) createdAt
                      false))
                    input.creatorId now).2
                  s.nextClusterId m.id now)
                s.nextClusterId s.nextMessageId now)
              exact WF_createBoth_path h rfl rfl hmmem hmp hmne hacS
                input.creatorId now now now
          · rw [vectorStage_eq_low hVB hts]
            show WF (addMembership
              (newClusterStore (insertMessage s
                (newMessageRow input s.nextMessageId (some e) createdAt false))
                input.creatorId now).2
              s.nextClusterId s.nextMessageId now)
            exact WF_fresh_path h rfl input.creatorId now now

/-- One `ingestMessage` call preserves well-formedness of the store. -/
theorem WF_ingest (env : Env) {s : Store} (h : WF s)
    (input : IngestMessageInput) (now : Nat) :
    WF (ingestMessage env s input now).store := by
  unfold ingestMessage
  by_cases hNR : needsResponse env input.text = false
  · rw [if_pos hNR]
    exact h
  · rw [if_neg hNR]
    by_cases hSE : lexSkipEmbed env s input = true
    · simp only [hSE, if_pos]
      exact WF_resolveCluster_ingest env h input now _ none _
    · simp only [eq_false_of_ne_true hSE, Bool.false_eq_true, if_false]
      cases hE : env.embed input.text with
      | none => exact h
      | some e => exact WF_resolveCluster_ingest env h input now _ (some e) _


@[simp] theorem purgeCluster_messages (s2 : Store)
    (members : List ClusterMessage) (id : Nat) :
    (purgeCluster s2 members id).messages =
      s2.messages.filter (fun m =>
        !((members.map (fun cm => cm.messageId)).contains m.id)) := rfl

@[simp] theorem purgeCluster_clusters (s2 : Store)
    (members : List ClusterMessage) (id : Nat) :
    (purgeCluster s2 members id).clusters =
      s2.clusters.filter (fun c2 => !(c2.id == id)) := rfl

@[simp] theorem purgeCluster_clusterMessages (s2 : Store)
    (members : List ClusterMessage) (id : Nat) :
    (purgeCluster s2 members id).clusterMessages =
      (s2.clusterMessages.filter (fun cm =>
        !((members.map (fun cm => cm.messageId)).contains cm.messageId))).filter
          (fun cm => !(cm.clusterId == id)) := rfl

@[simp] theorem purgeCluster_nextMessageId (s2 : Store)
    (members : List ClusterMessage) (id : Nat) :
    (purgeCluster s2 members id).nextMessageId = s2.nextMessageId := rfl

@[simp] theorem purgeCluster_nextClusterId (s2 : Store)
    (members : List ClusterMessage) (id : Nat) :
    (purgeCluster s2 members id).nextClusterId = s2.nextClusterId := rfl

@[simp] theorem purgeCluster_templates (s2 : Store)
    (members : List ClusterMessage) (id : Nat) :
    (purgeCluster s2 members id).templates = s2.templates := rfl

/-- Purging a cluster (deleting member messages, cascaded memberships and
the cluster row) preserves well-formedness: it only removes rows. -/
theorem WF_purgeCluster {s s2 : Store} (h : WF s)
    (hm2 : s2.messages = s.messages) (hc2 : s2.clusters = s.clusters)
    (hcm2 : s2.clusterMessages = s.clusterMessages)
    (hn2 : s2.nextMessageId = s.nextMessageId)
    (hnc2 : s2.nextClusterId = s.nextClusterId)
    (members : List ClusterMessage) (id : Nat) :
    WF (purgeCluster s2 members id) := by
  constructor
  · intro m hm
    simp only [purgeCluster_messages, List.mem_filter, hm2] at hm
    simp only [purgeCluster_nextMessageId, hn2]
    exact h.msg_lt m hm.1
  · exact List.Pairwise.sublist
      ((List.filter_sublist _).trans (by rw [hm2]))
      h.msg_nodup
  · intro c2 hc
    simp only [purgeCluster_clusters, List.mem_filter, hc2] at hc
    simp only [purgeCluster_nextClusterId, hnc2]
    exact h.cl_lt c2 hc.1
  · exact List.Pairwise.sublist
      ((List.filter_sublist _).trans (by rw [hc2]))
      h.cl_nodup
  · intro cm hcm
    simp only [purgeCluster_clusterMessages, List.mem_filter, hcm2] at hcm
    obtain ⟨⟨hcmMem, hnotMember⟩, hnotCl⟩ := hcm
    obtain ⟨m, hmMem, hmid⟩ := h.cm_msg cm hcmMem
    refine ⟨m, ?_, hmid⟩
    simp only [purgeCluster_messages, List.mem_filter, hm2]
    refine ⟨hmMem, ?_⟩
    rw [hmid]
    exact hnotMember
  · intro cm hcm
    simp only [purgeCluster_clusterMessages, List.mem_filter, hcm2] at hcm
    obtain ⟨⟨hcmMem, hx⟩, hnotCl⟩ := hcm
    obtain ⟨c2, hcMem, hcid⟩ := h.cm_cl cm hcmMem
    refine ⟨c2, ?_, hcid⟩
    simp only [purgeCluster_clusters, List.mem_filter, hc2]
    refine ⟨hcMem, ?_⟩
    rw [hcid]
    exact hnotCl
  · exact List.Pairwise.sublist
      ((List.filter_sublist _).trans
        ((List.filter_sublist _).trans (by rw [hcm2])))
      h.cm_nodup
  · intro cm hcm
    simp only [purgeCluster_clusterMessages, List.mem_filter, hcm2] at hcm
    exact h.cm_active cm hcm.1.1
  · intro m hm hpaid cm hcm hcmid cm2 hcm2m hcl2
    simp only [purgeCluster_messages, List.mem_filter, hm2] at hm
    simp only [purgeCluster_clusterMessages, List.mem_filter, hcm2] at hcm hcm2m
    exact h.paid_iso m hm.1 hpaid cm hcm.1.1 hcmid cm2 hcm2m.1.1 hcl2

/-- `actionCluster` preserves well-formedness of the store. -/
theorem WF_action {s : Store} (h : WF s) (now id : Nat)
    (responseText : String) (channelIds : List String) :
    WF (actionCluster s now id responseText channelIds).store := by
  unfold actionCluster
  split
  · exact h
  split
  · exact h
  split
  · exact h
  split
  · exact h
  rename_i c hfc earliest hem s2 hup
  have hpre : s2.messages = s.messages ∧ s2.clusters = s.clusters ∧
      s2.clusterMessages = s.clusterMessages ∧
      s2.nextMessageId = s.nextMessageId ∧
      s2.nextClusterId = s.nextClusterId := by
    unfold upsertTemplate at hup
    split at hup
    · cases hup
    split at hup
    · cases hup
      exact ⟨rfl, rfl, rfl, rfl, rfl⟩
    · cases hup
      exact ⟨rfl, rfl, rfl, rfl, rfl⟩
  obtain ⟨hm2, hc2, hcm2, hn2, hnc2⟩ := hpre
  exact WF_purgeCluster h hm2 hc2 hcm2 hn2 hnc2 _ _

/-- `removeClusterMessage` preserves well-formedness of the store. -/
theorem WF_remove {s : Store} (h : WF s) (now clusterId messageId : Nat) :
    WF (removeClusterMessage s now clusterId messageId).2 := by
  unfold removeClusterMessage
  split
  · exact h
  dsimp only
  split
  · -- last member removed: the cluster row is deleted too
    rename_i cm0 hf hemp
    constructor
    · exact h.msg_lt
    · exact h.msg_nodup
    · intro c hc
      simp only [List.mem_filter] at hc
      exact h.cl_lt c hc.1
    · exact List.Pairwise.sublist (List.filter_sublist _) h.cl_nodup
    · intro cm hcm
      simp only [List.mem_filter] at hcm
      exact h.cm_msg cm hcm.1
    · intro cm hcm
      simp only [List.mem_filter] at hcm
      obtain ⟨c, hcMem, hcid⟩ := h.cm_cl cm hcm.1
      refine ⟨c, ?_, hcid⟩
      simp only [List.mem_filter]
      refine ⟨hcMem, ?_⟩
      -- the deleted cluster kept no memberships, and `cm` survives, so
      -- `cm.clusterId` differs from `clusterId`
      have hne : (cm.clusterId == clusterId) = false := by
        by_contra hcontra
        have hcl : (cm.clusterId == clusterId) = true := by
          revert hcontra
          cases cm.clusterId == clusterId <;> simp
        have hmem2 : cm ∈ (s.clusterMessages.filter (fun cm =>
            !(cm.clusterId == clusterId && cm.messageId == messageId))).filter
              (fun cm => cm.clusterId == clusterId) := by
          simp only [List.mem_filter]
          exact ⟨hcm, hcl⟩
        rw [List.isEmpty_iff] at hemp
        rw [hemp] at hmem2
        cases hmem2
      rw [hcid]
      simpa using hne
    · exact List.Pairwise.sublist (List.filter_sublist _) h.cm_nodup
    · intro cm hcm
      simp only [List.mem_filter] at hcm
      exact h.cm_active cm hcm.1
    · intro m hm hpaid cm hcm hcmid cm2 hcm2m hcl2
      simp only [List.mem_filter] at hcm hcm2m
      exact h.paid_iso m hm hpaid cm hcm.1 hcmid cm2 hcm2m.1 hcl2
  · -- other members remain: the cluster row is kept, timestamp bumped
    rename_i cm0 hf hemp
    constructor
    · exact h.msg_lt
    · exact h.msg_nodup
    · intro c hc
      simp only [List.mem_map] at hc
      obtain ⟨c0, hc0, hc0eq⟩ := hc
      have hcid : c.id = c0.id := by
        subst hc0eq
        by_cases hcc : (c0.id == clusterId) = true
        · simp [hcc]
        · simp [hcc]
      rw [hcid]
      exact h.cl_lt c0 hc0
    · have hidpre : ∀ c0 : ClusterRow,
          ((if c0.id == clusterId then { c0 with updatedAt := now }
            else c0) : ClusterRow).id = c0.id := by
        intro c0
        by_cases hcc : (c0.id == clusterId) = true
        · simp [hcc]
        · simp [hcc]
      rw [List.pairwise_map]
      refine h.cl_nodup.imp ?_
      intro a b hab
      rw [hidpre a, hidpre b]
      exact hab
    · intro cm hcm
      simp only [List.mem_filter] at hcm
      exact h.cm_msg cm hcm.1
    · intro cm hcm
      simp only [List.mem_filter] at hcm
      obtain ⟨c, hcMem, hcid⟩ := h.cm_cl cm hcm.1
      refine ⟨if c.id == clusterId then { c with updatedAt := now }
        else c, List.mem_map_of_mem _ hcMem, ?_⟩
      by_cases hcc : (c.id == clusterId) = true
      · simpa [hcc] using hcid
      · simpa [hcc] using hcid
    · exact List.Pairwise.sublist (List.filter_sublist _) h.cm_nodup
    · intro cm hcm
      simp only [List.mem_filter] at hcm
      exact h.cm_active cm hcm.1
    · intro m hm hpaid cm hcm hcmid cm2 hcm2m hcl2
      simp only [List.mem_filter] at hcm hcm2m
      exact h.paid_iso m hm hpaid cm hcm.1 hcmid cm2 hcm2m.1 hcl2


/-- Every store reachable from the empty database by the three mutating
operations is well-formed. -/
theorem WF_run (env : Env) (ops : List Op) : WF (run env Store.empty ops) := by
  suffices hgen : ∀ (ops : List Op) (s : Store), WF s → WF (run env s ops) by
    exact hgen ops Store.empty WF_empty
  intro ops
  induction ops with
  | nil => intro s hs; exact hs
  | cons op rest ih =>
    intro s hs
    apply ih
    cases op with
    | ingest input now => exact WF_ingest env hs input now
    | action id text channels now => exact WF_action hs now id text channels
    | remove cid mid now => exact WF_remove hs now cid mid

/-! ## Shape of one ingest -/

theorem lexMatch_paid {env : Env} {s : Store} {input : IngestMessageInput}
    (h : input.isPaidDm = some true) : lexMatch env s input = none := by
  unfold lexMatch
  rw [h]
  rfl

theorem lexCluster_of_lexMatch_none {env : Env} {s : Store}
    {input : IngestMessageInput} (h : lexMatch env s input = none) :
    lexCluster env s input = none := by
  unfold lexCluster
  rw [h]
  rfl

theorem lexSkipEmbed_of_lexMatch_none {env : Env} {s : Store}
    {input : IngestMessageInput} (h : lexMatch env s input = none) :
    lexSkipEmbed env s input = false := by
  unfold lexSkipEmbed
  rw [h]

/-- Filtered-out input: returns Skipped, leaves the store unchanged and
never calls the embedding provider. -/
theorem ingestMessage_eq_filtered {env : Env} (s : Store)
    {input : IngestMessageInput} (now : Nat)
    (hNR : needsResponse env input.text = false) :
    ingestMessage env s input now =
      { result := .ok (.skipped "no_response_needed"), store := s,
        embedCalled := false } := by
  unfold ingestMessage
  rw [if_pos hNR]

/-- Embedding skipped by the lexical stage: the pipeline proceeds with a
null embedding and no provider call. -/
theorem ingestMessage_eq_skipEmbed {env : Env} (s : Store)
    {input : IngestMessageInput} (now : Nat)
    (hNR : needsResponse env input.text = true)
    (hSE : lexSkipEmbed env s input = true) :
    ingestMessage env s input now =
      { result := .ok (.ingested s.nextMessageId
          (resolveCluster env
            (insertMessage s (newMessageRow input s.nextMessageId none
              (input.createdAt.getD now) (input.isPaidDm == some true)))
            input now s.nextMessageId (input.isPaidDm == some true)
            (lexCluster env s input)
            ((lexMatch env s input).map (fun m =>
              (m.id, env.trgm m.text input.text)))
            none).1
          (((resolveCluster env
            (insertMessage s (newMessageRow input s.nextMessageId none
              (input.createdAt.getD now) (input.isPaidDm == some true)))
            input now s.nextMessageId (input.isPaidDm == some true)
            (lexCluster env s input)
            ((lexMatch env s input).map (fun m =>
              (m.id, env.trgm m.text input.text)))
            none).2.1).map (fun p => p.1))
          (((resolveCluster env
            (insertMessage s (newMessageRow input s.nextMessageId none
              (input.createdAt.getD now) (input.isPaidDm == some true)))
            input now s.nextMessageId (input.isPaidDm == some true)
            (lexCluster env s input)
            ((lexMatch env s input).map (fun m =>
              (m.id, env.trgm m.text input.text)))
            none).2.1).map (fun p => p.2))),
        store := (resolveCluster env
            (insertMessage s (newMessageRow input s.nextMessageId none
              (input.createdAt.getD now) (input.isPaidDm == some true)))
            input now s.nextMessageId (input.isPaidDm == some true)
            (lexCluster env s input)
            ((lexMatch env s input).map (fun m =>
              (m.id, env.trgm m.text input.text)))
            none).2.2,
        embedCalled := false } := by
  unfold ingestMessage
  rw [if_neg (by rw [hNR]; simp)]
  simp only [hSE, if_true]
  generalize resolveCluster env
      (insertMessage s (newMessageRow input s.nextMessageId none
        (input.createdAt.getD now) (input.isPaidDm == some true)))
      input now s.nextMessageId (input.isPaidDm == some true)
      (lexCluster env s input)
      ((lexMatch env s input).map (fun m =>
        (m.id, env.trgm m.text input.text)))
      none = R
  obtain ⟨cid, mf, s6⟩ := R
  rfl

/-- Provider failure with no lexical skip: the ingest errors and the store
is untouched. -/
theorem ingestMessage_eq_embedFail {env : Env} (s : Store)
    {input : IngestMessageInput} (now : Nat)
    (hNR : needsResponse env input.text = true)
    (hSE : lexSkipEmbed env s input = false)
    (hE : env.embed input.text = none) :
    ingestMessage env s input now =
      { result := .error .embeddingUnavailable, store := s,
        embedCalled := true } := by
  unfold ingestMessage
  rw [if_neg (by rw [hNR]; simp)]
  rw [hSE, hE]
  rfl

/-- Provider success with no lexical skip: the pipeline proceeds with the
fresh embedding. -/
theorem ingestMessage_eq_embed {env : Env} (s : Store)
    {input : IngestMessageInput} (now : Nat) {e : Emb}
    (hNR : needsResponse env input.text = true)
    (hSE : lexSkipEmbed env s input = false)
    (hE : env.embed input.text = some e) :
    ingestMessage env s input now =
      { result := .ok (.ingested s.nextMessageId
          (resolveCluster env
            (insertMessage s (newMessageRow input s.nextMessageId (some e)
              (input.createdAt.getD now) (input.isPaidDm == some true)))
            input now s.nextMessageId (input.isPaidDm == some true)
            (lexCluster env s input)
            ((lexMatch env s input).map (fun m =>
              (m.id, env.trgm m.text input.text)))
            (some e)).1
          (((resolveCluster env
            (insertMessage s (newMessageRow input s.nextMessageId (some e)
              (input.createdAt.getD now) (input.isPaidDm == some true)))
            input now s.nextMessageId (input.isPaidDm == some true)
            (lexCluster env s input)
            ((lexMatch env s input).map (fun m =>
              (m.id, env.trgm m.text input.text)))
            (some e)).2.1).map (fun p => p.1))
          (((resolveCluster env
            (insertMessage s (newMessageRow input s.nextMessageId (some e)
              (input.createdAt.getD now) (input.isPaidDm == some true)))
            input now s.nextMessageId (input.isPaidDm == some true)
            (lexCluster env s input)
            ((lexMatch env s input).map (fun m =>
              (m.id, env.trgm m.text input.text)))
            (some e)).2.1).map (fun p => p.2))),
        store := (resolveCluster env
            (insertMessage s (newMessageRow input s.nextMessageId (some e)
              (input.createdAt.getD now) (input.isPaidDm == some true)))
            input now s.nextMessageId (input.isPaidDm == some true)
            (lexCluster env s input)
            ((lexMatch env s input).map (fun m =>
              (m.id, env.trgm m.text input.text)))
            (some e)).2.2,
        embedCalled := true } := by
  unfold ingestMessage
  rw [if_neg (by rw [hNR]; simp)]
  simp only [hSE, hE, Bool.false_eq_true, if_false]
  generalize resolveCluster env
      (insertMessage s (newMessageRow input s.nextMessageId (some e)
        (input.createdAt.getD now) (input.isPaidDm == some true)))
      input now s.nextMessageId (input.isPaidDm == some true)
      (lexCluster env s input)
      ((lexMatch env s input).map (fun m =>
        (m.id, env.trgm m.text input.text)))
      (some e) = R
  obtain ⟨cid, mf, s6⟩ := R
  rfl

/-- The skip flag holds exactly when a lexical match resolved a cluster
with another embedded member. -/
theorem lexSkipEmbed_iff {env : Env} {s : Store} {input : IngestMessageInput} :
    lexSkipEmbed env s input = true ↔
      ∃ m cid, lexMatch env s input = some m ∧
        activeClusterOf s m.id = some cid ∧
        clusterHasOtherEmbedded s cid m.id = true := by
  unfold lexSkipEmbed
  cases hm : lexMatch env s input with
  | none => simp
  | some m =>
    cases hc : lexCluster env s input with
    | none =>
      simp only [hm, Option.some.injEq]
      constructor
      · intro hfalse; cases hfalse
      · rintro ⟨m2, cid, rfl, hac, hemb⟩
        exfalso
        unfold lexCluster at hc
        rw [hm] at hc
        simp only [Option.some_bind] at hc
        rw [hac] at hc
        cases hc
    | some cid =>
      have hac : activeClusterOf s m.id = some cid := by
        unfold lexCluster at hc
        rw [hm] at hc
        simpa using hc
      simp only [hm, Option.some.injEq]
      constructor
      · intro hemb
        exact ⟨m, cid, rfl, hac, hemb⟩
      · rintro ⟨m2, cid2, rfl, hac2, hemb2⟩
        rw [hac] at hac2
        cases hac2
        exact hemb2

/-- `embeddings.embed` is invoked exactly when the lexical stage did not
skip it. -/
theorem ingest_embedCalled {env : Env} {s : Store}
    {input : IngestMessageInput} {now : Nat}
    (hNR : needsResponse env input.text = true) :
    (ingestMessage env s input now).embedCalled =
      !(lexSkipEmbed env s input) := by
  by_cases hSE : lexSkipEmbed env s input = true
  · rw [ingestMessage_eq_skipEmbed s now hNR hSE, hSE]
    rfl
  · have hSE2 : lexSkipEmbed env s input = false := eq_false_of_ne_true hSE
    rw [hSE2]
    cases hE : env.embed input.text with
    | none =>
      rw [ingestMessage_eq_embedFail s now hNR hSE2 hE]
      rfl
    | some e =>
      rw [ingestMessage_eq_embed s now hNR hSE2 hE]
      rfl

/-! ## Concrete probe environments and inputs used by witnesses -/

/-- A trivial environment: all similarities zero, the provider returns
embedding token `0`, nothing is an emoji. -/
def probeEnv : Env :=
  { trgm := fun _ _ => 0, cos := fun _ _ => 0, embed := fun _ => some 0,
    isEmoji := fun _ => false }

/-- Build a minimal ingest input. -/
def mkInput (creator extId text ch : String) (cAt : Option Nat)
    (paid : Option Bool) : IngestMessageInput :=
  { creatorId := creator, messageId := extId, text := text, channelId := ch,
    channelCid := none, visitorUserId := none, visitorUsername := none,
    createdAt := cAt, isPaidDm := paid, rawPayload := none }

/-- Claim C5: for every ingest input whose text is shorter than the
minimum response length (default 5, measured on the trimmed text) or
matches one of the configured no-response-needed patterns, `ingestMessage`
returns Skipped with reason "no_response_needed", leaves the store
unchanged and never calls the embedding provider. -/
theorem C5_no_response_skipped (env : Env) (s : Store)
    (input : IngestMessageInput) (now : Nat)
    (h : (jsTrim input.text).length < MIN_RESPONSE_LENGTH ∨
      noResponsePatternMatch env (jsTrim input.text) = true) :
    ingestMessage env s input now =
      { result := .ok (.skipped "no_response_needed"), store := s,
        embedCalled := false } := by
  apply ingestMessage_eq_filtered
  unfold needsResponse
  rcases h with h | h
  · simp [h]
  · simp [h]

/-- Witness for C5 at the concrete acknowledgement text "thanks!!". -/
theorem C5_witness :
    (((jsTrim "thanks!!").length < MIN_RESPONSE_LENGTH ∨
        noResponsePatternMatch probeEnv (jsTrim "thanks!!") = true)) ∧
    ingestMessage probeEnv Store.empty
        (mkInput "creator-1" "ext-1" "thanks!!" "channel-1" none none) 0 =
      { result := .ok (.skipped "no_response_needed"), store := Store.empty,
        embedCalled := false } :=
  ⟨Or.inr (by decide),
   C5_no_response_skipped probeEnv Store.empty
     (mkInput "creator-1" "ext-1" "thanks!!" "channel-1" none none) 0
     (Or.inr (by decide))⟩

/-- Claim C8: after any sequence of ingest, action and removeMember
operations from the empty store, the active memberships are pairwise on
distinct messages — no message belongs to two clusters simultaneously. -/
theorem C8_message_in_at_most_one_cluster (env : Env) (ops : List Op) :
    ((run env Store.empty ops).clusterMessages.filter
      (fun cm => cm.excludedAt.isNone)).Pairwise
      (fun a b => a.messageId ≠ b.messageId) :=
  List.Pairwise.sublist (List.filter_sublist _) (WF_run env ops).cm_nodup

theorem attachToCluster_some (s4 : Store) (creator : String)
    (now newId cid : Nat) (mf : Option (Nat × ℚ)) :
    attachToCluster s4 creator now newId (some cid) mf =
      (cid, mf, addMembership s4 cid newId now) := rfl

theorem attachToCluster_none (s4 : Store) (creator : String)
    (now newId : Nat) (mf : Option (Nat × ℚ)) :
    attachToCluster s4 creator now newId none mf =
      ((newClusterStore s4 creator now).1, mf,
       addMembership (newClusterStore s4 creator now).2
         (newClusterStore s4 creator now).1 newId now) := rfl

/-- Claim C7: when the embedding provider fails, a non-filtered ingest
either had the embedding call skipped — exactly when its lexical match
resolved into a cluster with another embedded member, in which case the
ingest still succeeds — or it errors with the store left completely
unchanged. -/
theorem C7_embedding_failure (env : Env) (s : Store)
    (input : IngestMessageInput) (now : Nat)
    (hNR : needsResponse env input.text = true) :
    ((ingestMessage env s input now).embedCalled = false ↔
      ∃ m cid, lexMatch env s input = some m ∧
        activeClusterOf s m.id = some cid ∧
        clusterHasOtherEmbedded s cid m.id = true) ∧
    (env.embed input.text = none →
      ((ingestMessage env s input now).embedCalled = true →
        ingestMessage env s input now =
          { result := .error .embeddingUnavailable, store := s,
            embedCalled := true }) ∧
      ((ingestMessage env s input now).embedCalled = false →
        ∃ r, (ingestMessage env s input now).result = .ok r)) := by
  have hEC := @ingest_embedCalled env s input now hNR
  constructor
  · rw [hEC]
    have hbool : (!(lexSkipEmbed env s input)) = false ↔
        lexSkipEmbed env s input = true := by
      cases lexSkipEmbed env s input <;> simp
    rw [hbool]
    exact lexSkipEmbed_iff
  · intro hE
    constructor
    · intro hct
      by_cases hSE : lexSkipEmbed env s input = true
      · exfalso
        rw [hEC, hSE] at hct
        cases hct
      · exact ingestMessage_eq_embedFail s now hNR (eq_false_of_ne_true hSE) hE
    · intro hc
      by_cases hSE : lexSkipEmbed env s input = true
      · rw [ingestMessage_eq_skipEmbed s now hNR hSE]
        exact ⟨_, rfl⟩
      · rw [hEC, eq_false_of_ne_true hSE] at hc
        cases hc

/-- An environment whose embedding provider always fails. -/
def failEnv : Env :=
  { trgm := fun _ _ => 0, cos := fun _ _ => 0, embed := fun _ => none,
    isEmoji := fun _ => false }

/-- Witness for C7: with a failing provider and no lexical skip the
concrete ingest errors and the store stays empty. -/
theorem C7_witness :
    ingestMessage failEnv Store.empty
        (mkInput "creator-1" "ext-1" "hello there" "channel-1" none none) 0 =
      { result := .error .embeddingUnavailable, store := Store.empty,
        embedCalled := true } :=
  ((C7_embedding_failure failEnv Store.empty
      (mkInput "creator-1" "ext-1" "hello there" "channel-1" none none) 0
      (by decide)).2 rfl).1 (by decide)

/-- Claim C6: a paid DM is ingested into a fresh cluster containing
exactly that message, with no lexical or vector match reported; and in
every store reachable from the empty database, a cluster holding a paid
message holds no other membership. -/
theorem C6_paid_isolation (env : Env) :
    (∀ (s : Store) (input : IngestMessageInput) (now : Nat) (e : Emb),
      WF s → input.isPaidDm = some true →
      needsResponse env input.text = true →
      env.embed input.text = some e →
      (ingestMessage env s input now).result =
        .ok (.ingested s.nextMessageId s.nextClusterId none none) ∧
      ((ingestMessage env s input now).store.clusterMessages.filter
        (fun cm => cm.clusterId == s.nextClusterId)).map
          (fun cm => cm.messageId) = [s.nextMessageId]) ∧
    (∀ ops : List Op, ∀ m ∈ (run env Store.empty ops).messages,
      m.isPaidDm = true →
      ∀ cm ∈ (run env Store.empty ops).clusterMessages, cm.messageId = m.id →
        ∀ cm2 ∈ (run env Store.empty ops).clusterMessages,
          cm2.clusterId = cm.clusterId → cm2 = cm) := by
  constructor
  · intro s input now e hWF hP hNR hE
    have hBP : (input.isPaidDm == some true) = true := by rw [hP]; rfl
    have hlm : lexMatch env s input = none := lexMatch_paid hP
    have hlc := lexCluster_of_lexMatch_none hlm
    have hSE : lexSkipEmbed env s input = false :=
      lexSkipEmbed_of_lexMatch_none hlm
    rw [ingestMessage_eq_embed s now hNR hSE hE]
    rw [hlm, hlc, hBP, resolveCluster_paid, attachToCluster_none]
    refine ⟨rfl, ?_⟩
    have hnil : s.clusterMessages.filter
        (fun cm => cm.clusterId == s.nextClusterId) = [] := by
      rw [List.filter_eq_nil_iff]
      intro cm hcm
      simpa using fresh_cluster_no_members hWF cm hcm
    simp only [addMembership_clusterMessages, newClusterStore_clusterMessages,
      insertMessage_clusterMessages, newClusterStore_fst,
      insertMessage_nextClusterId, List.filter_append, hnil]
    simp
  · intro ops m hm hpaid cm hcm hcmid cm2 hcm2 hcl
    have h := WF_run env ops
    have hmid := h.paid_iso m hm hpaid cm hcm hcmid cm2 hcm2 hcl
    exact eq_of_mem_pairwise_ne h.cm_nodup hcm2 hcm (by rw [hmid, hcmid])

/-- A concrete paid-DM input. -/
def paidProbeInput : IngestMessageInput :=
  mkInput "creator-1" "ext-paid" "hello there" "channel-9" (some 5)
    (some true)

/-- Witness for C6 at a concrete paid ingest from the empty store. -/
theorem C6_witness :
    ((ingestMessage probeEnv Store.empty paidProbeInput 5).result =
      .ok (.ingested 0 0 none none) ∧
     ((ingestMessage probeEnv Store.empty paidProbeInput 5).store.clusterMessages.filter
       (fun cm => cm.clusterId == 0)).map (fun cm => cm.messageId) = [0]) ∧
    ({ clusterId := 0, messageId := 0, createdAt := 5,
       excludedAt := none } : ClusterMessage) =
      { clusterId := 0, messageId := 0, createdAt := 5, excludedAt := none } :=
  ⟨(C6_paid_isolation probeEnv).1 Store.empty paidProbeInput 5 0 WF_empty rfl
    (by decide) rfl,
   (C6_paid_isolation probeEnv).2 [Op.ingest paidProbeInput 5]
     { id := 0, externalMessageId := "ext-paid", creatorId := "creator-1",
       channelId := "channel-9", channelCid := none, visitorUserId := none,
       visitorUsername := none, text := "hello there", embedding := some 0,
       createdAt := 5, repliedAt := none, isPaidDm := true,
       rawPayload := none }
     (by decide) rfl
     { clusterId := 0, messageId := 0, createdAt := 5, excludedAt := none }
     (by decide) rfl
     { clusterId := 0, messageId := 0, createdAt := 5, excludedAt := none }
     (by decide) rfl⟩

/-! ## The suggestion query (C9) -/

theorem suggestionTemplates_eq {s : Store} {clusterId : Nat} {e : Emb}
    (env : Env) (creatorId : String)
    (he : earliestEmbedding s clusterId = some e) :
    suggestionTemplates env s clusterId creatorId =
      ((s.templates.filter (fun t =>
          t.creatorId == creatorId &&
            decide (SUGGESTION_THRESHOLD < env.cos t.questionEmbedding e))).insertionSort
        (suggRel env e)).take 3 := by
  unfold suggestionTemplates
  rw [he]

theorem getSuggestedResponses_eq {s : Store} {clusterId : Nat} {e : Emb}
    (env : Env) (creatorId : String)
    (he : earliestEmbedding s clusterId = some e) :
    getSuggestedResponses env s clusterId creatorId =
      (suggestionTemplates env s clusterId creatorId).map (fun t =>
        (t.responseText, round3 (env.cos t.questionEmbedding e))) := by
  unfold getSuggestedResponses
  rw [he]

theorem getSuggestedResponses_none {s : Store} {clusterId : Nat} (env : Env)
    (creatorId : String) (he : earliestEmbedding s clusterId = none) :
    getSuggestedResponses env s clusterId creatorId = [] := by
  unfold getSuggestedResponses
  rw [he]

instance (env : Env) (e : Emb) : IsTotal ResponseTemplate (suggRel env e) :=
  ⟨fun a b => le_total (suggKey env e b) (suggKey env e a)⟩

instance (env : Env) (e : Emb) : IsTrans ResponseTemplate (suggRel env e) :=
  ⟨fun _ _ _ hab hbc => le_trans hbc hab⟩

/-- Claim C9: `getSuggestedResponses` returns at most 3 entries; each
returned entry comes from one of the creator's templates whose similarity
to the cluster's earliest member's embedding strictly exceeds 0.8 and
carries that template's text and rounded similarity; the selected
templates are sorted by (similarity desc, usageCount desc, lastUsedAt
desc); and the result is empty whenever the earliest member lacks an
embedding. -/
theorem C9_suggested_responses (env : Env) (s : Store) (clusterId : Nat)
    (creatorId : String) :
    (getSuggestedResponses env s clusterId creatorId).length ≤ 3 ∧
    (∀ m e, earliestMember s clusterId = some m → m.embedding = some e →
      (∀ p ∈ getSuggestedResponses env s clusterId creatorId,
        ∃ t ∈ s.templates, t.creatorId = creatorId ∧
          SUGGESTION_THRESHOLD < env.cos t.questionEmbedding e ∧
          p = (t.responseText, round3 (env.cos t.questionEmbedding e))) ∧
      (suggestionTemplates env s clusterId creatorId).Sorted
        (suggRel env e)) ∧
    (∀ m, earliestMember s clusterId = some m → m.embedding = none →
      getSuggestedResponses env s clusterId creatorId = []) := by
  refine ⟨?_, ?_, ?_⟩
  · cases he : earliestEmbedding s clusterId with
    | none => rw [getSuggestedResponses_none env creatorId he]; simp
    | some e =>
      rw [getSuggestedResponses_eq env creatorId he,
        suggestionTemplates_eq env creatorId he]
      simp only [List.length_map, List.length_take]
      omega
  · intro m e hm hemb
    have he : earliestEmbedding s clusterId = some e := by
      unfold earliestEmbedding
      rw [hm]
      exact hemb
    constructor
    · intro p hp
      rw [getSuggestedResponses_eq env creatorId he,
        suggestionTemplates_eq env creatorId he] at hp
      simp only [List.mem_map] at hp
      obtain ⟨t, ht, rfl⟩ := hp
      have ht2 := (List.take_sublist _ _).subset ht
      rw [List.mem_insertionSort] at ht2
      rw [List.mem_filter] at ht2
      obtain ⟨htm, hcond⟩ := ht2
      simp only [Bool.and_eq_true, beq_iff_eq, decide_eq_true_eq] at hcond
      exact ⟨t, htm, hcond.1, hcond.2, rfl⟩
    · rw [suggestionTemplates_eq env creatorId he]
      exact List.Pairwise.sublist (List.take_sublist _ _)
        (List.sorted_insertionSort _ _)
  · intro m hm hemb
    apply getSuggestedResponses_none
    unfold earliestEmbedding
    rw [hm]
    exact hemb

/-- Environment for the C9 witness: token 5 is identical to itself,
anything else scores 0.85. -/
def suggEnv : Env :=
  { trgm := fun _ _ => 0,
    cos := fun a b => if a == b then 1 else mkRat 17 20,
    embed := fun _ => some 0, isEmoji := fun _ => false }

/-- A message row used by concrete stores: embedded with token `emb`. -/
def probeMsg (mid : Nat) (ch : String) (emb : Option Emb)
    (cAt : Nat) : MessageRow :=
  { id := mid, externalMessageId := "ext", creatorId := "creator-1",
    channelId := ch, channelCid := none, visitorUserId := none,
    visitorUsername := none, text := "hello there", embedding := emb,
    createdAt := cAt, repliedAt := none, isPaidDm := false,
    rawPayload := none }

/-- A template row used by concrete stores. -/
def probeTemplate (tid : Nat) (emb : Emb) (txt : String) (usage : Nat)
    (used : Nat) : ResponseTemplate :=
  { id := tid, creatorId := "creator-1", questionText := none,
    questionEmbedding := emb, responseText := txt, usageCount := usage,
    lastUsedAt := used, createdAt := 0 }

/-- Store for the C9 witness: one single-member cluster and two templates
above the threshold. -/
def suggStore : Store :=
  { messages := [probeMsg 0 "channel-1" (some 5) 0],
    clusters := [freshClusterRow 0 "creator-1" 0],
    clusterMessages :=
      [{ clusterId := 0, messageId := 0, createdAt := 0, excludedAt := none }],
    templates := [probeTemplate 0 5 "answer-a" 1 3,
                  probeTemplate 1 9 "answer-b" 4 4],
    nextMessageId := 1, nextClusterId := 1, nextTemplateId := 2 }

/-- Witness for C9 at the concrete store. -/
theorem C9_witness :
    (getSuggestedResponses suggEnv suggStore 0 "creator-1").length ≤ 3 ∧
    (suggestionTemplates suggEnv suggStore 0 "creator-1").Sorted
      (suggRel suggEnv 5) :=
  ⟨(C9_suggested_responses suggEnv suggStore 0 "creator-1").1,
   ((C9_suggested_responses suggEnv suggStore 0 "creator-1").2.1
     (probeMsg 0 "channel-1" (some 5) 0) 5 (by decide) rfl).2⟩

/-- Claim C10: whenever a cluster's earliest member has no stored
embedding, `actionCluster` fails — the `response_templates` insert would
violate the NOT NULL constraint on `question_embedding`, and the SQL
lookup `question_embedding = NULL` can never match — and the transaction
rolls back, leaving the store unchanged. -/
theorem C10_action_unembedded_earliest (s : Store) (now id : Nat)
    (txt : String) (chans : List String) (c : ClusterRow) (m : MessageRow)
    (hch : chans.isEmpty = false) (hfc : findCluster s id = some c)
    (hem : earliestMember s id = some m) (hemb : m.embedding = none) :
    actionCluster s now id txt chans =
      { result := .error .notNullViolation, store := s } := by
  unfold actionCluster
  rw [if_neg (by rw [hch]; simp)]
  simp only [hfc, hem, hemb, upsertTemplate]

/-- Environment for concrete clustering runs: equal texts are lexically
identical, equal embedding tokens are cosine-identical, the provider
returns token 7. -/
def lexEnv : Env :=
  { trgm := fun a b => if a == b then 1 else 0,
    cos := fun a b => if a == b then 1 else 0,
    embed := fun _ => some 7, isEmoji := fun _ => false }

/-- Ingest input used by the concrete clustering runs: same creator, same
text, varying channel and createdAt. -/
def lexIn (extId ch : String) (cAt : Nat) : IngestMessageInput :=
  mkInput "creator-1" extId "hello there" ch (some cAt) none

/-- Three same-text ingests; the third one joins via a lexical match and
is stored with a null embedding and the earliest caller-supplied
createdAt. -/
def nullEmbStore : Store :=
  run lexEnv Store.empty
    [Op.ingest (lexIn "e1" "channel-1" 10) 1,
     Op.ingest (lexIn "e2" "channel-2" 11) 2,
     Op.ingest (lexIn "e3" "channel-3" 5) 3]

/-- Witness for C10: the reachable store whose cluster-0 earliest member
(the lexically matched third message) has no embedding makes
`actionCluster` fail and change nothing. -/
theorem C10_witness :
    actionCluster nullEmbStore 20 0 "resp" ["channel-1"] =
      { result := .error .notNullViolation, store := nullEmbStore } :=
  C10_action_unembedded_earliest nullEmbStore 20 0 "resp" ["channel-1"]
    (freshClusterRow 0 "creator-1" 1)
    { id := 2, externalMessageId := "e3", creatorId := "creator-1",
      channelId := "channel-3", channelCid := none, visitorUserId := none,
      visitorUsername := none, text := "hello there", embedding := none,
      createdAt := 5, repliedAt := none, isPaidDm := false,
      rawPayload := none }
    rfl (by decide) (by decide) rfl

/-- Three same-text ingests from channels 1, 2 and 1 again — the supersede
scenario of the repository's own e2e test and README. -/
def supersedeStore : Store :=
  run lexEnv Store.empty
    [Op.ingest (lexIn "e1" "channel-1" 10) 1,
     Op.ingest (lexIn "e2" "channel-2" 11) 2,
     Op.ingest (lexIn "e3" "channel-1" 12) 3]

/-- Claim C1 evaluated on the code: after messages from channel-1,
channel-2 and channel-1 again all join cluster 0, all three memberships
remain active — `ingestMessage` performs no same-channel eviction, so two
active memberships for channel-1 persist where the claim (and the
repository's tests and README) demand exactly one. -/
theorem C1_supersede_missing :
    supersedeStore.clusterMessages.map
      (fun cm => (cm.clusterId, cm.messageId)) = [(0, 0), (0, 1), (0, 2)] ∧
    supersedeStore.messages.map (fun m => m.channelId) =
      ["channel-1", "channel-2", "channel-1"] ∧
    (supersedeStore.clusterMessages.filter
      (fun cm => cm.excludedAt.isNone)).length = 3 := by
  refine ⟨by decide, by decide, by decide⟩

/-- A two-member open cluster about to be actioned. -/
def c2Store : Store :=
  { messages := [probeMsg 0 "channel-1" (some 5) 0,
                 probeMsg 1 "channel-2" (some 5) 1],
    clusters := [freshClusterRow 0 "creator-1" 0],
    clusterMessages :=
      [{ clusterId := 0, messageId := 0, createdAt := 0, excludedAt := none },
       { clusterId := 0, messageId := 1, createdAt := 1, excludedAt := none }],
    templates := [], nextMessageId := 2, nextClusterId := 1,
    nextTemplateId := 0 }

/-- Claim C2 evaluated on the code: actioning the cluster with both
channels selected succeeds, but the member `messages` rows are deleted
outright — none survives to carry a `repliedAt` mark, where the claim
(and docs/api-reference.md) demand surviving rows with repliedAt set. -/
theorem C2_action_deletes_messages :
    (actionCluster c2Store 9 0 "Thanks for asking!"
      ["channel-1", "channel-2"]).result = .ok () ∧
    (actionCluster c2Store 9 0 "Thanks for asking!"
      ["channel-1", "channel-2"]).store.messages = [] ∧
    (actionCluster c2Store 9 0 "Thanks for asking!"
      ["channel-1", "channel-2"]).store.clusters = [] := by
  refine ⟨rfl, by decide, by decide⟩

theorem lexSkipEmbed_of_lexCluster_none {env : Env} {s : Store}
    {input : IngestMessageInput} (h : lexCluster env s input = none) :
    lexSkipEmbed env s input = false := by
  unfold lexSkipEmbed
  rw [h]
  cases lexMatch env s input <;> rfl

/-- Claim C4 (amended): when the lexical stage matches a message that has
a cluster, the new message joins that cluster; when the vector stage
accepts a match, the new message joins the matched message's cluster when
it has one, and otherwise a fresh cluster is created containing both the
matched and the new message.  (When the lexical match has no cluster,
clustering falls through to the vector stage and the lexically matched
message can be left outside the resulting cluster — see the
counterexample.) -/
theorem C4_cluster_resolution (env : Env) (s : Store)
    (input : IngestMessageInput) (now : Nat)
    (hNR : needsResponse env input.text = true) :
    (∀ m cid, lexMatch env s input = some m →
      activeClusterOf s m.id = some cid →
      ∀ r, (ingestMessage env s input now).result = .ok r →
        r = .ingested s.nextMessageId cid (some m.id)
          (some (env.trgm m.text input.text)) ∧
        ({ clusterId := cid, messageId := s.nextMessageId, createdAt := now,
           excludedAt := none } : ClusterMessage) ∈
          (ingestMessage env s input now).store.clusterMessages) ∧
    (∀ e m, lexCluster env s input = none →
      (input.isPaidDm == some true) = false →
      env.embed input.text = some e →
      vectorBest env (insertMessage s (newMessageRow input s.nextMessageId
        (some e) (input.createdAt.getD now)
        (input.isPaidDm == some true))) input s.nextMessageId e = some m →
      SIMILARITY_THRESHOLD ≤ vectorSim env e m →
      (∀ cid, activeClusterOf s m.id = some cid →
        (ingestMessage env s input now).result =
          .ok (.ingested s.nextMessageId cid (some m.id)
            (some (vectorSim env e m))) ∧
        ({ clusterId := cid, messageId := s.nextMessageId, createdAt := now,
           excludedAt := none } : ClusterMessage) ∈
          (ingestMessage env s input now).store.clusterMessages) ∧
      (activeClusterOf s m.id = none →
        (ingestMessage env s input now).result =
          .ok (.ingested s.nextMessageId s.nextClusterId (some m.id)
            (some (vectorSim env e m))) ∧
        ({ clusterId := s.nextClusterId, messageId := m.id, createdAt := now,
           excludedAt := none } : ClusterMessage) ∈
          (ingestMessage env s input now).store.clusterMessages ∧
        ({ clusterId := s.nextClusterId, messageId := s.nextMessageId,
           createdAt := now, excludedAt := none } : ClusterMessage) ∈
          (ingestMessage env s input now).store.clusterMessages)) := by
  constructor
  · -- lexical stage resolved a cluster
    intro m cid hm hac r hr
    have hlc : lexCluster env s input = some cid := by
      unfold lexCluster
      rw [hm]
      simpa using hac
    have hP := lexMatch_isPaid_false hm
    by_cases hSE : lexSkipEmbed env s input = true
    · rw [ingestMessage_eq_skipEmbed s now hNR hSE] at hr ⊢
      rw [hlc, hm, hP, resolveCluster_someCluster, attachToCluster_some] at hr ⊢
      simp only [Except.ok.injEq] at hr
      subst hr
      refine ⟨rfl, ?_⟩
      simp [addMembership_clusterMessages]
    · have hSE2 := eq_false_of_ne_true hSE
      cases hE : env.embed input.text with
      | none =>
        rw [ingestMessage_eq_embedFail s now hNR hSE2 hE] at hr
        cases hr
      | some e =>
        rw [ingestMessage_eq_embed s now hNR hSE2 hE] at hr ⊢
        rw [hlc, hm, hP, resolveCluster_someCluster, attachToCluster_some]
          at hr ⊢
        simp only [Except.ok.injEq] at hr
        subst hr
        refine ⟨rfl, ?_⟩
        simp [addMembership_clusterMessages]
  · -- vector stage
    intro e m hlc hP hE hVB hts
    have hSE2 : lexSkipEmbed env s input = false :=
      lexSkipEmbed_of_lexCluster_none hlc
    rw [hP] at hVB
    constructor
    · intro cid hac
      have hacs1 : activeClusterOf (insertMessage s
          (newMessageRow input s.nextMessageId (some e)
            (input.createdAt.getD now) false))
          m.id = some cid := by
        rw [activeClusterOf_insertMessage]
        exact hac
      rw [ingestMessage_eq_embed s now hNR hSE2 hE]
      rw [hlc, hP, resolveCluster_vec, vectorStage_eq_join hVB hts hacs1]
      exact ⟨rfl, List.mem_append_right _ (List.mem_singleton_self _)⟩
    · intro hac
      have hacs1 : activeClusterOf (insertMessage s
          (newMessageRow input s.nextMessageId (some e)
            (input.createdAt.getD now) false))
          m.id = none := by
        rw [activeClusterOf_insertMessage]
        exact hac
      rw [ingestMessage_eq_embed s now hNR hSE2 hE]
      rw [hlc, hP, resolveCluster_vec,
        vectorStage_eq_createBoth hVB hts hacs1]
      exact ⟨rfl,
        List.mem_append_left _
          (List.mem_append_right _ (List.mem_singleton_self _)),
        List.mem_append_right _ (List.mem_singleton_self _)⟩

instance {ε α : Type} [DecidableEq ε] [DecidableEq α] :
    DecidableEq (Except ε α) := fun x y =>
  match x, y with
  | .ok a, .ok b =>
    if h : a = b then isTrue (by rw [h])
    else isFalse (by intro hc; cases hc; exact h rfl)
  | .error a, .error b =>
    if h : a = b then isTrue (by rw [h])
    else isFalse (by intro hc; cases hc; exact h rfl)
  | .ok _, .error _ => isFalse (by intro hc; cases hc)
  | .error _, .ok _ => isFalse (by intro hc; cases hc)

/-- Environment for the C4 counterexample: every pair of texts is
lexically 0.86-similar, every pair of embeddings is cosine-0.5-similar. -/
def lexOrphanEnv : Env :=
  { trgm := fun _ _ => mkRat 86 100,
    cos := fun _ _ => mkRat 1 2,
    embed := fun t => if t == "what are your rates?" then some 1 else some 2,
    isEmoji := fun _ => false }

/-- A store holding one unreplied, embedded, unclustered message: reached
by ingesting it and then removing it from its (thereby deleted)
cluster. -/
def lexOrphanStore : Store :=
  run lexOrphanEnv Store.empty
    [Op.ingest (mkInput "creator-1" "e1" "what are your rates?" "channel-1"
      (some 1) none) 1,
     Op.remove 0 0 2]

/-- Counterexample to claim C4 as stated: the ingest accepts a lexical
match (matchedMessageId 0, similarity 0.86) whose matched message has no
cluster, yet no cluster containing both is created — the vector score 0.5
falls short of the 0.9 threshold, so the new message ends up alone in a
fresh cluster and the matched message stays outside it. -/
theorem C4_counterexample :
    (ingestMessage lexOrphanEnv lexOrphanStore
      (mkInput "creator-1" "e2" "rates for collabs?" "channel-2" (some 3)
        none) 3).result =
      .ok (.ingested 1 1 (some 0) (some (mkRat 86 100))) ∧
    ((ingestMessage lexOrphanEnv lexOrphanStore
      (mkInput "creator-1" "e2" "rates for collabs?" "channel-2" (some 3)
        none) 3).store.clusterMessages.map
        (fun cm => (cm.clusterId, cm.messageId))) = [(1, 1)] ∧
    ((ingestMessage lexOrphanEnv lexOrphanStore
      (mkInput "creator-1" "e2" "rates for collabs?" "channel-2" (some 3)
        none) 3).store.messages.map (fun m => m.id)) = [0, 1] := by
  refine ⟨by decide, by decide, by decide⟩

/-- The store after one ingest: a single message in cluster 0. -/
def oneMsgStore : Store :=
  run lexEnv Store.empty [Op.ingest (lexIn "e1" "channel-1" 10) 1]

/-- Witness for C4 at a concrete lexical join: the second same-text
ingest joins cluster 0 of the first message. -/
theorem C4_witness :
    (ingestMessage lexEnv oneMsgStore (lexIn "e2" "channel-2" 11) 2).result =
      .ok (.ingested 1 0 (some 0) (some 1)) ∧
    ({ clusterId := 0, messageId := 1, createdAt := 2, excludedAt := none } :
      ClusterMessage) ∈
      (ingestMessage lexEnv oneMsgStore
        (lexIn "e2" "channel-2" 11) 2).store.clusterMessages := by
  have h := ((C4_cluster_resolution lexEnv oneMsgStore
      (lexIn "e2" "channel-2" 11) 2 (by decide)).1
    { id := 0, externalMessageId := "e1", creatorId := "creator-1",
      channelId := "channel-1", channelCid := none, visitorUserId := none,
      visitorUsername := none, text := "hello there", embedding := some 7,
      createdAt := 10, repliedAt := none, isPaidDm := false,
      rawPayload := none }
    0 (by decide) (by decide)
    (.ingested 1 0 (some 0) (some 1)) (by decide)).2
  exact ⟨by decide, h⟩

/-! ## Response-template upsert across two actions (C3) -/

/-- On a list whose `p`-satisfying element is unique, `find?` returns it
on any sublist containing it. -/
theorem find?_sublist_of_unique {l' l : List α} {p : α → Bool} {a : α}
    (hsub : List.Sublist l' l) (ha : a ∈ l') (hpa : p a = true)
    (huniq : ∀ b ∈ l, p b = true → b = a) : l'.find? p = some a := by
  induction l' with
  | nil => cases ha
  | cons x xs ih =>
    have hxl : x ∈ l := hsub.subset (List.mem_cons_self x xs)
    by_cases hpx : p x = true
    · have hxa : x = a := huniq x hxl hpx
      subst hxa
      simp [List.find?_cons, hpx]
    · have hpx2 : p x = false := eq_false_of_ne_true hpx
      have hxs : List.Sublist xs l := (List.sublist_cons_self x xs).trans hsub
      have ha2 : a ∈ xs := by
        rcases List.mem_cons.mp ha with rfl | h2
        · rw [hpa] at hpx2; cases hpx2
        · exact h2
      rw [List.find?_cons, hpx2]
      exact ih hxs ha2

/-- The `response_templates` predicate used by the upsert lookup. -/
def templatePred (γ txt : String) (e : Emb) (t : ResponseTemplate) : Bool :=
  t.creatorId == γ && t.responseText == txt && t.questionEmbedding == e

/-- The fresh template row inserted by a first-time upsert. -/
def freshTemplateRow (tid : Nat) (γ txt : String) (e : Emb) (now : Nat) :
    ResponseTemplate :=
  { id := tid, creatorId := γ, questionText := none, questionEmbedding := e,
    responseText := txt, usageCount := 1, lastUsedAt := now, createdAt := now }

theorem upsertTemplate_insert {s : Store} {γ txt : String} {e : Emb}
    {now : Nat} (hfind : s.templates.find? (templatePred γ txt e) = none) :
    upsertTemplate s γ txt (some e) now =
      some { s with
        templates := s.templates ++
          [freshTemplateRow s.nextTemplateId γ txt e now],
        nextTemplateId := s.nextTemplateId + 1 } := by
  unfold templatePred at hfind
  simp only [upsertTemplate, hfind]
  rfl

theorem upsertTemplate_increment {s : Store} {γ txt : String} {e : Emb}
    {now : Nat} {t : ResponseTemplate}
    (hfind : s.templates.find? (templatePred γ txt e) = some t) :
    upsertTemplate s γ txt (some e) now =
      some { s with
        templates := s.templates.map (fun t2 =>
          if t2.id == t.id then
            { t2 with usageCount := t2.usageCount + 1, lastUsedAt := now }
          else t2) } := by
  unfold templatePred at hfind
  simp only [upsertTemplate, hfind]

theorem actionCluster_eq_ok {s : Store} {now id : Nat} {txt : String}
    {chans : List String} {c : ClusterRow} {earliest : MessageRow}
    {s2 : Store} (hch : chans.isEmpty = false)
    (hfc : findCluster s id = some c)
    (hem : earliestMember s id = some earliest)
    (hup : upsertTemplate s c.creatorId txt earliest.embedding now = some s2) :
    actionCluster s now id txt chans =
      { result := .ok (), store := purgeCluster s2 (membersOf s id) id } := by
  unfold actionCluster
  rw [if_neg (by rw [hch]; simp)]
  simp only [hfc, hem, hup]

/-- The template rows a creator has recorded for a given response text
(the grouping of Scenario E, without the embedding key). -/
def tmplFor (γ txt : String) (t : ResponseTemplate) : Bool :=
  t.creatorId == γ && t.responseText == txt

/-- The per-row update of the upsert's increment branch. -/
def bumpRow (tid now : Nat) (t2 : ResponseTemplate) : ResponseTemplate :=
  if t2.id == tid then
    { t2 with usageCount := t2.usageCount + 1, lastUsedAt := now }
  else t2

/-- The store after the upsert's insert branch. -/
def insertTemplateStore (s : Store) (γ txt : String) (e : Emb) (now : Nat) :
    Store :=
  { s with
     templates := s.templates ++ [freshTemplateRow s.nextTemplateId γ txt e now],
     nextTemplateId := s.nextTemplateId + 1 }

/-- The store after the upsert's increment branch. -/
def bumpTemplateStore (s : Store) (tid now : Nat) : Store :=
  { s with templates := s.templates.map (bumpRow tid now) }

theorem insertTemplateStore_templates (s : Store) (γ txt : String) (e : Emb)
    (now : Nat) : (insertTemplateStore s γ txt e now).templates
      = s.templates ++ [freshTemplateRow s.nextTemplateId γ txt e now] := rfl

theorem insertTemplateStore_clusters (s : Store) (γ txt : String) (e : Emb)
    (now : Nat) : (insertTemplateStore s γ txt e now).clusters = s.clusters := rfl

theorem insertTemplateStore_messages (s : Store) (γ txt : String) (e : Emb)
    (now : Nat) : (insertTemplateStore s γ txt e now).messages = s.messages := rfl

theorem insertTemplateStore_clusterMessages (s : Store) (γ txt : String)
    (e : Emb) (now : Nat) :
    (insertTemplateStore s γ txt e now).clusterMessages = s.clusterMessages := rfl

theorem bumpTemplateStore_templates (s : Store) (tid now : Nat) :
    (bumpTemplateStore s tid now).templates
      = s.templates.map (bumpRow tid now) := rfl

theorem bumpRow_creatorId (tid now : Nat) (t : ResponseTemplate) :
    (bumpRow tid now t).creatorId = t.creatorId := by
  unfold bumpRow; split <;> rfl

theorem bumpRow_responseText (tid now : Nat) (t : ResponseTemplate) :
    (bumpRow tid now t).responseText = t.responseText := by
  unfold bumpRow; split <;> rfl

theorem bumpRow_fresh (tid nA now : Nat) (γ txt : String) (e : Emb) :
    bumpRow tid now (freshTemplateRow tid γ txt e nA)
      = { id := tid, creatorId := γ, questionText := none,
          questionEmbedding := e, responseText := txt, usageCount := 2,
          lastUsedAt := now, createdAt := nA } := by
  unfold bumpRow freshTemplateRow
  simp

/-- Purging one cluster leaves a different cluster's row, memberships and
earliest member untouched: the deleted member messages all belong to the
purged cluster (memberships are unique per message). -/
theorem purge_keeps_other_cluster {s sT : Store} (hWF : WF s) {A B : Nat}
    (hAB : A ≠ B)
    (hcl : sT.clusters = s.clusters) (hms : sT.messages = s.messages)
    (hcm2 : sT.clusterMessages = s.clusterMessages)
    {cB : ClusterRow} (hfB : findCluster s B = some cB)
    {mB : MessageRow} (heB : earliestMember s B = some mB) :
    findCluster (purgeCluster sT (membersOf s A) A) B = some cB ∧
    earliestMember (purgeCluster sT (membersOf s A) A) B = some mB := by
  have hcBmem : cB ∈ s.clusters := List.mem_of_find?_eq_some hfB
  have hcBid : cB.id = B := by
    have h := List.find?_some hfB
    simpa using h
  have hclu : (purgeCluster sT (membersOf s A) A).clusters
      = s.clusters.filter (fun c2 => !(c2.id == A)) := by
    rw [purgeCluster_clusters, hcl]
  have hmsg : (purgeCluster sT (membersOf s A) A).messages
      = s.messages.filter (fun m =>
          !(((membersOf s A).map (fun cm => cm.messageId)).contains m.id)) := by
    rw [purgeCluster_messages, hms]
  have hcmm : (purgeCluster sT (membersOf s A) A).clusterMessages
      = (s.clusterMessages.filter (fun cm =>
          !(((membersOf s A).map (fun cm => cm.messageId)).contains
            cm.messageId))).filter (fun cm => !(cm.clusterId == A)) := by
    rw [purgeCluster_clusterMessages, hcm2]
  have hfB' : findCluster (purgeCluster sT (membersOf s A) A) B = some cB := by
    unfold findCluster
    rw [hclu]
    refine find?_sublist_of_unique (List.filter_sublist _) ?_ ?_ ?_
    · refine List.mem_filter.mpr ⟨hcBmem, ?_⟩
      simp only [Bool.not_eq_true', beq_eq_false_iff_ne]
      rw [hcBid]
      exact Ne.symm hAB
    · simp [hcBid]
    · intro b hb hpb
      refine eq_of_mem_pairwise_ne hWF.cl_nodup hb hcBmem ?_
      rw [beq_iff_eq] at hpb
      rw [hpb, hcBid]
  have hmB : membersOf (purgeCluster sT (membersOf s A) A) B
      = membersOf s B := by
    show List.filter (fun cm => cm.clusterId == B)
        (purgeCluster sT (membersOf s A) A).clusterMessages
      = List.filter (fun cm => cm.clusterId == B) s.clusterMessages
    rw [hcmm, List.filter_filter, List.filter_filter]
    refine List.filter_congr ?_
    intro cm hcm
    dsimp only
    by_cases hB : cm.clusterId = B
    · have hpB : (cm.clusterId == B) = true := beq_iff_eq.mpr hB
      have hA : (cm.clusterId == A) = false := by
        rw [beq_eq_false_iff_ne, hB]
        exact Ne.symm hAB
      have hnotmem : cm.messageId ∉
          (membersOf s A).map (fun cm2 => cm2.messageId) := by
        intro hmem
        rcases List.mem_map.mp hmem with ⟨cmA, hcmA, hid⟩
        have hcmA' := List.mem_filter.mp hcmA
        have heq : cmA = cm :=
          eq_of_mem_pairwise_ne hWF.cm_nodup hcmA'.1 hcm hid
        have hclA : (cmA.clusterId == A) = true := hcmA'.2
        rw [heq, beq_iff_eq, hB] at hclA
        exact hAB hclA.symm
      have hcnt : (((membersOf s A).map
          (fun cm2 => cm2.messageId)).contains cm.messageId) = false := by
        cases hc : (((membersOf s A).map
            (fun cm2 => cm2.messageId)).contains cm.messageId) with
        | false => rfl
        | true => exact absurd (List.elem_iff.mp hc) hnotmem
      simp [hpB, hA, hcnt]
      intro x hx hxe
      exact hnotmem (List.mem_map.mpr ⟨x, hx, hxe⟩)
    · have hpB : (cm.clusterId == B) = false := beq_eq_false_iff_ne.mpr hB
      simp [hpB]
  have hmm : memberMessages (purgeCluster sT (membersOf s A) A) B
      = memberMessages s B := by
    unfold memberMessages
    rw [hmB]
    refine List.filterMap_congr ?_
    intro cm hcm
    dsimp only
    have hcm' := List.mem_filter.mp hcm
    obtain ⟨m', hm'mem, hm'id⟩ := hWF.cm_msg cm hcm'.1
    have huniq : ∀ b ∈ s.messages, (b.id == cm.messageId) = true → b = m' := by
      intro b hb hpb
      refine eq_of_mem_pairwise_ne hWF.msg_nodup hb hm'mem ?_
      rw [beq_iff_eq] at hpb
      rw [hpb, hm'id]
    have h1 : findMessage s cm.messageId = some m' :=
      find?_sublist_of_unique (List.Sublist.refl s.messages) hm'mem
        (beq_iff_eq.mpr hm'id) huniq
    have hnotmem : m'.id ∉ (membersOf s A).map (fun cm2 => cm2.messageId) := by
      intro hmem
      rcases List.mem_map.mp hmem with ⟨cmA, hcmA, hid2⟩
      have hcmA' := List.mem_filter.mp hcmA
      have heq : cmA = cm := by
        refine eq_of_mem_pairwise_ne hWF.cm_nodup hcmA'.1 hcm'.1 ?_
        rw [hid2, hm'id]
      have hclA : (cmA.clusterId == A) = true := hcmA'.2
      have hclB : (cm.clusterId == B) = true := hcm'.2
      rw [heq, beq_iff_eq] at hclA
      rw [beq_iff_eq] at hclB
      rw [hclB] at hclA
      exact hAB hclA.symm
    have hcnt : (((membersOf s A).map
        (fun cm2 => cm2.messageId)).contains m'.id) = false := by
      cases hc : (((membersOf s A).map
          (fun cm2 => cm2.messageId)).contains m'.id) with
      | false => rfl
      | true => exact absurd (List.elem_iff.mp hc) hnotmem
    have hmem2 : m' ∈ s.messages.filter (fun m =>
        !(((membersOf s A).map (fun cm => cm.messageId)).contains m.id)) := by
      refine List.mem_filter.mpr ⟨hm'mem, ?_⟩
      dsimp only
      rw [hcnt]
      rfl
    have h2 : findMessage (purgeCluster sT (membersOf s A) A) cm.messageId
        = some m' := by
      unfold findMessage
      rw [hmsg]
      exact find?_sublist_of_unique (List.filter_sublist _) hmem2
        (beq_iff_eq.mpr hm'id) huniq
    rw [h1, h2]
  have heB' : earliestMember (purgeCluster sT (membersOf s A) A) B
      = some mB := by
    unfold earliestMember
    rw [hmm]
    exact heB
  exact ⟨hfB', heB'⟩

/-- Claim C3 (amended): actioning two different clusters of the same
creator with identical response text yields a single template row with
usage count 2 — provided the two clusters' earliest members carry the
same stored embedding and no template row for that creator and response
text existed beforehand.  The upsert deduplicates on the triple
(creator_id, response_text, question_embedding), so differing
earliest-member embeddings insert two rows instead. -/
theorem C3_template_upsert (s : Store) (hWF : WF s) (A B nA nB : Nat)
    (γ txt : String) (chA chB : List String) (cA cB : ClusterRow)
    (mA mB : MessageRow) (e : Emb)
    (hAB : A ≠ B) (hchA : chA.isEmpty = false) (hchB : chB.isEmpty = false)
    (hfA : findCluster s A = some cA) (hfB : findCluster s B = some cB)
    (hcrA : cA.creatorId = γ) (hcrB : cB.creatorId = γ)
    (heA : earliestMember s A = some mA) (heB : earliestMember s B = some mB)
    (hembA : mA.embedding = some e) (hembB : mB.embedding = some e)
    (hnone : ∀ t ∈ s.templates, ¬(t.creatorId = γ ∧ t.responseText = txt)) :
    (actionCluster s nA A txt chA).result = Except.ok () ∧
    (actionCluster (actionCluster s nA A txt chA).store nB B txt chB).result
      = Except.ok () ∧
    (((actionCluster (actionCluster s nA A txt chA).store nB B txt
        chB).store.templates.filter (tmplFor γ txt)).map
      (fun t => t.usageCount)) = [2] := by
  have hfind1 : s.templates.find? (templatePred cA.creatorId txt e) = none := by
    rw [List.find?_eq_none]
    intro t ht hp
    unfold templatePred at hp
    simp only [Bool.and_eq_true, beq_iff_eq] at hp
    exact hnone t ht ⟨hp.1.1.trans hcrA, hp.1.2⟩
  have hup1 : upsertTemplate s cA.creatorId txt mA.embedding nA
      = some (insertTemplateStore s cA.creatorId txt e nA) := by
    rw [hembA]
    exact upsertTemplate_insert hfind1
  have hact1 : actionCluster s nA A txt chA =
      { result := Except.ok (),
        store := purgeCluster (insertTemplateStore s cA.creatorId txt e nA)
          (membersOf s A) A } :=
    actionCluster_eq_ok hchA hfA heA hup1
  obtain ⟨hfB', heB'⟩ :=
    purge_keeps_other_cluster hWF hAB
      (insertTemplateStore_clusters s cA.creatorId txt e nA)
      (insertTemplateStore_messages s cA.creatorId txt e nA)
      (insertTemplateStore_clusterMessages s cA.creatorId txt e nA) hfB heB
  have hfind2 : (purgeCluster (insertTemplateStore s cA.creatorId txt e nA)
      (membersOf s A) A).templates.find? (templatePred cB.creatorId txt e)
      = some (freshTemplateRow s.nextTemplateId cA.creatorId txt e nA) := by
    rw [purgeCluster_templates, insertTemplateStore_templates,
      List.find?_append]
    have h0 : s.templates.find? (templatePred cB.creatorId txt e) = none := by
      rw [List.find?_eq_none]
      intro t ht hp
      unfold templatePred at hp
      simp only [Bool.and_eq_true, beq_iff_eq] at hp
      exact hnone t ht ⟨hp.1.1.trans hcrB, hp.1.2⟩
    have hp1 : templatePred cB.creatorId txt e
        (freshTemplateRow s.nextTemplateId cA.creatorId txt e nA) = true := by
      unfold templatePred freshTemplateRow
      simp [hcrA, hcrB]
    rw [h0, List.find?_cons_of_pos _ hp1, Option.none_or]
  have hup2 : upsertTemplate
      (purgeCluster (insertTemplateStore s cA.creatorId txt e nA)
        (membersOf s A) A) cB.creatorId txt mB.embedding nB
      = some (bumpTemplateStore
          (purgeCluster (insertTemplateStore s cA.creatorId txt e nA)
            (membersOf s A) A) s.nextTemplateId nB) := by
    rw [hembB]
    exact upsertTemplate_increment hfind2
  have hact2 := actionCluster_eq_ok hchB hfB' heB' hup2
  have hfilter : ((((s.templates ++
        [freshTemplateRow s.nextTemplateId cA.creatorId txt e nA]).map
        (bumpRow s.nextTemplateId nB)).filter (tmplFor γ txt)).map
      (fun t => t.usageCount)) = [2] := by
    rw [List.filter_map, List.filter_append]
    have ha : s.templates.filter
        (tmplFor γ txt ∘ bumpRow s.nextTemplateId nB) = [] := by
      rw [List.filter_eq_nil_iff]
      intro t ht hp
      rw [Function.comp_apply] at hp
      unfold tmplFor at hp
      rw [bumpRow_creatorId, bumpRow_responseText] at hp
      simp only [Bool.and_eq_true, beq_iff_eq] at hp
      exact hnone t ht hp
    have hp1 : (tmplFor γ txt ∘ bumpRow s.nextTemplateId nB)
        (freshTemplateRow s.nextTemplateId cA.creatorId txt e nA) = true := by
      rw [Function.comp_apply, bumpRow_fresh]
      unfold tmplFor
      simp [hcrA]
    have hb : [freshTemplateRow s.nextTemplateId cA.creatorId txt e nA].filter
        (tmplFor γ txt ∘ bumpRow s.nextTemplateId nB)
        = [freshTemplateRow s.nextTemplateId cA.creatorId txt e nA] := by
      rw [List.filter_cons_of_pos hp1, List.filter_nil]
    rw [ha, hb]
    simp [bumpRow_fresh]
  refine ⟨by simp only [hact1], by simp only [hact1, hact2], ?_⟩
  simp only [hact1, hact2]
  rw [purgeCluster_templates, bumpTemplateStore_templates,
    purgeCluster_templates, insertTemplateStore_templates]
  exact hfilter

/-- Two single-member clusters of the same creator whose earliest members
carry different embeddings (tokens 1 and 2). -/
def c3Store : Store :=
  { messages := [probeMsg 0 "channel-1" (some 1) 0,
                 probeMsg 1 "channel-2" (some 2) 0],
    clusters := [freshClusterRow 0 "creator-1" 0,
                 freshClusterRow 1 "creator-1" 0],
    clusterMessages :=
      [{ clusterId := 0, messageId := 0, createdAt := 0, excludedAt := none },
       { clusterId := 1, messageId := 1, createdAt := 0, excludedAt := none }],
    templates := [], nextMessageId := 2, nextClusterId := 2,
    nextTemplateId := 0 }

/-- Counterexample to C3 as stated: actioning the two clusters of
`c3Store` (same creator, identical response text, different
earliest-member embeddings) leaves two template rows with usage count 1
each, not one row with usage count 2 — the upsert deduplicates on
(creator_id, response_text, question_embedding). -/
theorem C3_counterexample :
    (actionCluster c3Store 10 0 "reply" ["channel-1"]).result = Except.ok () ∧
    (actionCluster (actionCluster c3Store 10 0 "reply" ["channel-1"]).store
      11 1 "reply" ["channel-2"]).result = Except.ok () ∧
    (((actionCluster (actionCluster c3Store 10 0 "reply" ["channel-1"]).store
        11 1 "reply" ["channel-2"]).store.templates.filter
        (tmplFor "creator-1" "reply")).map (fun t => t.usageCount))
      = [1, 1] := by
  refine ⟨?_, ?_, ?_⟩ <;> decide

/-- Two single-member clusters of the same creator whose earliest members
carry the same embedding token 5. -/
def c3wStore : Store :=
  { messages := [probeMsg 0 "channel-1" (some 5) 0,
                 probeMsg 1 "channel-2" (some 5) 1],
    clusters := [freshClusterRow 0 "creator-1" 0,
                 freshClusterRow 1 "creator-1" 0],
    clusterMessages :=
      [{ clusterId := 0, messageId := 0, createdAt := 0, excludedAt := none },
       { clusterId := 1, messageId := 1, createdAt := 0, excludedAt := none }],
    templates := [], nextMessageId := 2, nextClusterId := 2,
    nextTemplateId := 0 }

/-- Witness for the amended C3 at the concrete store with equal
earliest-member embeddings. -/
theorem C3_witness :
    (actionCluster c3wStore 10 0 "reply" ["channel-1"]).result
      = Except.ok () ∧
    (actionCluster (actionCluster c3wStore 10 0 "reply" ["channel-1"]).store
      11 1 "reply" ["channel-2"]).result = Except.ok () ∧
    (((actionCluster (actionCluster c3wStore 10 0 "reply" ["channel-1"]).store
        11 1 "reply" ["channel-2"]).store.templates.filter
        (tmplFor "creator-1" "reply")).map (fun t => t.usageCount)) = [2] :=
  C3_template_upsert c3wStore (by constructor <;> decide) 0 1 10 11
    "creator-1" "reply" ["channel-1"] ["channel-2"]
    (freshClusterRow 0 "creator-1" 0) (freshClusterRow 1 "creator-1" 0)
    (probeMsg 0 "channel-1" (some 5) 0) (probeMsg 1 "channel-2" (some 5) 1) 5
    (by decide) rfl rfl (by decide) (by decide) rfl rfl (by decide) (by decide)
    rfl rfl (by decide)

end MsgClust
